import Mathlib

/-!
Verification of the 6502 CPU interpreter core (src/cpu.rs, src/opcodes.rs).

The Rust source is embedded shallowly:
* `u8` / `u16` values are `Nat`s; wrapping arithmetic is explicit `% 256` /
  `% 65536`, mirroring `wrapping_add` / `as u8` casts in the source.
* The memory array `[u8; 0xFFFF]` is a function `Nat → Nat` together with a
  bounds check: indexing at an address `≥ 0xFFFF` is the out-of-bounds panic
  of the Rust slice access, modelled as `Except.error`.
* The panics of the source (`expect` on an unknown opcode, `panic!` for the
  `NoneAddressing` mode, `todo!()` in the default dispatch arm, slice
  out-of-bounds) are the constructors of `Err`.
* The unbounded `loop` in `CPU::run` is `runFuel`, a fuel-indexed iteration
  of the single-instruction `step`; `none` means the fuel ran out.
-/

namespace NES

/-- Bit masks of `CpuFlags` exactly as declared by the `bitflags!` block. -/
def CARRY : Nat := 0b00000001

/-- ZERO mask of `CpuFlags`. -/
def ZERO : Nat := 0b00000010

/-- INTERRUPT_DISABLE mask of `CpuFlags`. -/
def INTERRUPT_DISABLE : Nat := 0b00000100

/-- DECIMAL_MODE mask of `CpuFlags`. -/
def DECIMAL_MODE : Nat := 0b00001000

/-- BREAK mask of `CpuFlags`. -/
def BREAK : Nat := 0b00010000

/-- BREAK2 mask of `CpuFlags`. -/
def BREAK2 : Nat := 0b00100000

/-- OVERFLOW mask of `CpuFlags`. -/
def OVERFLOW : Nat := 0b01000000

/-- NEGATIVE mask of `CpuFlags`. -/
def NEGATIVE : Nat := 0b10000000

/-- Source `const STACK: u16 = 0x0100`. -/
def STACK : Nat := 0x0100

/-- Source `const STACK_RESET: u8 = 0xfd`. -/
def STACK_RESET : Nat := 0xfd

/-- Source `bitflags` `contains` for the single-bit masks used by the source. -/
def containsFlag (s f : Nat) : Bool := s &&& f != 0

/-- Source `bitflags` `insert`: set the bits of the mask. -/
def insertFlag (s f : Nat) : Nat := s ||| f

/-- Source `bitflags` `remove` on a `u8` flag set: clear the bits of the mask. -/
def removeFlag (s f : Nat) : Nat := s &&& (0xFF ^^^ f)

/-- Source `bitflags` `set`: insert or remove depending on the boolean. -/
def setFlag (s f : Nat) (b : Bool) : Nat := if b then insertFlag s f else removeFlag s f

/-- The `AddressingMode` enum of cpu.rs. -/
inductive AddressingMode where
  | Immediate
  | ZeroPage
  | ZeroPage_X
  | ZeroPage_Y
  | Absolute
  | Absolute_X
  | Absolute_Y
  | Indirect_X
  | Indirect_Y
  | NoneAddressing
deriving DecidableEq, Repr

/-- The `OpCode` descriptor of opcodes.rs. -/
structure OpCode where
  code : Nat
  mnemonic : String
  len : Nat
  cycles : Nat
  mode : AddressingMode
deriving DecidableEq, Repr

/-- The `CPU_OPS_CODES` table of opcodes.rs, transcribed entry for entry. -/
def CPU_OPS_CODES : List OpCode := [
  OpCode.mk 0x00 "BRK" 1 7 AddressingMode.NoneAddressing,
  OpCode.mk 0xaa "TAX" 1 2 AddressingMode.NoneAddressing,
  OpCode.mk 0xe8 "INX" 1 2 AddressingMode.NoneAddressing,

  OpCode.mk 0xa9 "LDA" 2 2 AddressingMode.Immediate,
  OpCode.mk 0xa5 "LDA" 2 3 AddressingMode.ZeroPage,
  OpCode.mk 0xb5 "LDA" 2 4 AddressingMode.ZeroPage_X,
  OpCode.mk 0xad "LDA" 3 4 AddressingMode.Absolute,
  OpCode.mk 0xbd "LDA" 3 4 AddressingMode.Absolute_X,
  OpCode.mk 0xb9 "LDA" 3 4 AddressingMode.Absolute_Y,
  OpCode.mk 0xa1 "LDA" 2 6 AddressingMode.Indirect_X,
  OpCode.mk 0xb1 "LDA" 2 5 AddressingMode.Indirect_Y,

  OpCode.mk 0xA2 "LDX" 2 2 AddressingMode.Immediate,
  OpCode.mk 0xA6 "LDX" 2 3 AddressingMode.ZeroPage,
  OpCode.mk 0xB6 "LDX" 2 4 AddressingMode.ZeroPage_Y,
  OpCode.mk 0xAE "LDX" 3 4 AddressingMode.Absolute,
  OpCode.mk 0xBE "LDX" 3 4 AddressingMode.Absolute_Y,

  OpCode.mk 0xA0 "LDY" 2 2 AddressingMode.Immediate,
  OpCode.mk 0xA4 "LDY" 2 3 AddressingMode.ZeroPage,
  OpCode.mk 0xB4 "LDY" 2 4 AddressingMode.ZeroPage_X,
  OpCode.mk 0xAC "LDY" 3 4 AddressingMode.Absolute,
  OpCode.mk 0xBC "LDY" 3 4 AddressingMode.Absolute_X,

  OpCode.mk 0x85 "STA" 2 3 AddressingMode.ZeroPage,
  OpCode.mk 0x95 "STA" 2 4 AddressingMode.ZeroPage_X,
  OpCode.mk 0x8d "STA" 3 4 AddressingMode.Absolute,
  OpCode.mk 0x9d "STA" 3 5 AddressingMode.Absolute_X,
  OpCode.mk 0x99 "STA" 3 5 AddressingMode.Absolute_Y,
  OpCode.mk 0x81 "STA" 2 6 AddressingMode.Indirect_X,
  OpCode.mk 0x91 "STA" 2 6 AddressingMode.Indirect_Y,

  OpCode.mk 0x86 "STX" 2 3 AddressingMode.ZeroPage,
  OpCode.mk 0x96 "STX" 2 4 AddressingMode.ZeroPage_Y,
  OpCode.mk 0x8e "STX" 3 4 AddressingMode.Absolute,

  OpCode.mk 0x84 "STY" 2 3 AddressingMode.ZeroPage,
  OpCode.mk 0x94 "STY" 2 4 AddressingMode.ZeroPage_X,
  OpCode.mk 0x8c "STY" 3 4 AddressingMode.Absolute,

  OpCode.mk 0x69 "ADC" 2 2 AddressingMode.Immediate,
  OpCode.mk 0x65 "ADC" 2 3 AddressingMode.ZeroPage,
  OpCode.mk 0x75 "ADC" 2 4 AddressingMode.ZeroPage_X,
  OpCode.mk 0x6D "ADC" 3 4 AddressingMode.Absolute,
  OpCode.mk 0x7D "ADC" 3 4 AddressingMode.Absolute_X,
  OpCode.mk 0x79 "ADC" 3 4 AddressingMode.Absolute_Y,
  OpCode.mk 0x61 "ADC" 2 6 AddressingMode.Indirect_X,
  OpCode.mk 0x71 "ADC" 2 5 AddressingMode.Indirect_Y,

  OpCode.mk 0xE9 "SBC" 2 2 AddressingMode.Immediate,
  OpCode.mk 0xE5 "SBC" 2 3 AddressingMode.ZeroPage,
  OpCode.mk 0xF5 "SBC" 2 4 AddressingMode.ZeroPage_X,
  OpCode.mk 0xED "SBC" 3 4 AddressingMode.Absolute,
  OpCode.mk 0xFD "SBC" 3 4 AddressingMode.Absolute_X,
  OpCode.mk 0xF9 "SBC" 3 4 AddressingMode.Absolute_Y,
  OpCode.mk 0xE1 "SBC" 2 6 AddressingMode.Indirect_X,
  OpCode.mk 0xF1 "SBC" 2 5 AddressingMode.Indirect_Y,

  OpCode.mk 0xC9 "CMP" 2 2 AddressingMode.Immediate,
  OpCode.mk 0xC5 "CMP" 2 3 AddressingMode.ZeroPage,
  OpCode.mk 0xD5 "CMP" 2 4 AddressingMode.ZeroPage_X,
  OpCode.mk 0xCD "CMP" 3 4 AddressingMode.Absolute,
  OpCode.mk 0xDD "CMP" 3 4 AddressingMode.Absolute_X,
  OpCode.mk 0xD9 "CMP" 3 4 AddressingMode.Absolute_Y,
  OpCode.mk 0xC1 "CMP" 2 6 AddressingMode.Indirect_X,
  OpCode.mk 0xD1 "CMP" 2 5 AddressingMode.Indirect_Y,

  OpCode.mk 0xE0 "CPX" 2 2 AddressingMode.Immediate,
  OpCode.mk 0xE4 "CPX" 2 3 AddressingMode.ZeroPage,
  OpCode.mk 0xEC "CPX" 3 4 AddressingMode.Absolute,

  OpCode.mk 0xC0 "CPY" 2 2 AddressingMode.Immediate,
  OpCode.mk 0xC4 "CPY" 2 3 AddressingMode.ZeroPage,
  OpCode.mk 0xCC "CPY" 3 4 AddressingMode.Absolute,

  OpCode.mk 0x29 "AND" 2 2 AddressingMode.Immediate,
  OpCode.mk 0x25 "AND" 2 3 AddressingMode.ZeroPage,
  OpCode.mk 0x35 "AND" 2 4 AddressingMode.ZeroPage_X,
  OpCode.mk 0x2D "AND" 3 4 AddressingMode.Absolute,
  OpCode.mk 0x3D "AND" 3 4 AddressingMode.Absolute_X,
  OpCode.mk 0x39 "AND" 3 4 AddressingMode.Absolute_Y,
  OpCode.mk 0x21 "AND" 2 6 AddressingMode.Indirect_X,
  OpCode.mk 0x31 "AND" 2 5 AddressingMode.Indirect_Y,

  OpCode.mk 0x09 "ORA" 2 2 AddressingMode.Immediate,
  OpCode.mk 0x05 "ORA" 2 3 AddressingMode.ZeroPage,
  OpCode.mk 0x15 "ORA" 2 4 AddressingMode.ZeroPage_X,
  OpCode.mk 0x0D "ORA" 3 4 AddressingMode.Absolute,
  OpCode.mk 0x1D "ORA" 3 4 AddressingMode.Absolute_X,
  OpCode.mk 0x19 "ORA" 3 4 AddressingMode.Absolute_Y,
  OpCode.mk 0x01 "ORA" 2 6 AddressingMode.Indirect_X,
  OpCode.mk 0x11 "ORA" 2 5 AddressingMode.Indirect_Y,

  OpCode.mk 0x49 "EOR" 2 2 AddressingMode.Immediate,
  OpCode.mk 0x45 "EOR" 2 3 AddressingMode.ZeroPage,
  OpCode.mk 0x55 "EOR" 2 4 AddressingMode.ZeroPage_X,
  OpCode.mk 0x4D "EOR" 3 4 AddressingMode.Absolute,
  OpCode.mk 0x5D "EOR" 3 4 AddressingMode.Absolute_X,
  OpCode.mk 0x59 "EOR" 3 4 AddressingMode.Absolute_Y,
  OpCode.mk 0x41 "EOR" 2 6 AddressingMode.Indirect_X,
  OpCode.mk 0x51 "EOR" 2 5 AddressingMode.Indirect_Y,

  OpCode.mk 0x24 "BIT" 2 3 AddressingMode.ZeroPage,
  OpCode.mk 0x2C "BIT" 3 4 AddressingMode.Absolute,

  OpCode.mk 0x06 "ASL" 2 5 AddressingMode.ZeroPage,
  OpCode.mk 0x16 "ASL" 2 6 AddressingMode.ZeroPage_X,
  OpCode.mk 0x0E "ASL" 3 6 AddressingMode.Absolute,
  OpCode.mk 0x1E "ASL" 3 7 AddressingMode.Absolute_X,

  OpCode.mk 0x46 "LSR" 2 5 AddressingMode.ZeroPage,
  OpCode.mk 0x56 "LSR" 2 6 AddressingMode.ZeroPage_X,
  OpCode.mk 0x4E "LSR" 3 6 AddressingMode.Absolute,
  OpCode.mk 0x5E "LSR" 3 7 AddressingMode.Absolute_X,

  OpCode.mk 0x26 "ROL" 2 5 AddressingMode.ZeroPage,
  OpCode.mk 0x36 "ROL" 2 6 AddressingMode.ZeroPage_X,
  OpCode.mk 0x2E "ROL" 3 6 AddressingMode.Absolute,
  OpCode.mk 0x3E "ROL" 3 7 AddressingMode.Absolute_X,

  OpCode.mk 0x66 "ROR" 2 5 AddressingMode.ZeroPage,
  OpCode.mk 0x76 "ROR" 2 6 AddressingMode.ZeroPage_X,
  OpCode.mk 0x6E "ROR" 3 6 AddressingMode.Absolute,
  OpCode.mk 0x7E "ROR" 3 7 AddressingMode.Absolute_X,

  OpCode.mk 0xE6 "INC" 2 5 AddressingMode.ZeroPage,
  OpCode.mk 0xF6 "INC" 2 6 AddressingMode.ZeroPage_X,
  OpCode.mk 0xEE "INC" 3 6 AddressingMode.Absolute,
  OpCode.mk 0xFE "INC" 3 7 AddressingMode.Absolute_X,

  OpCode.mk 0xC6 "DEC" 2 5 AddressingMode.ZeroPage,
  OpCode.mk 0xD6 "DEC" 2 6 AddressingMode.ZeroPage_X,
  OpCode.mk 0xCE "DEC" 3 6 AddressingMode.Absolute,
  OpCode.mk 0xDE "DEC" 3 7 AddressingMode.Absolute_X]

/-- Lookup in `OPCODES_MAP`: the hash map built from `CPU_OPS_CODES` keyed by
the opcode byte (the table has no duplicate codes, so a first-match list
search is the same function). -/
def lookupOp (code : Nat) : Option OpCode :=
  CPU_OPS_CODES.find? (fun op => op.code == code)

/-- The panics of the Rust source. -/
inductive Err where
  | unknownOpcode (code : Nat)
  | memOutOfBounds
  | modeMisuse
  | notImplemented
deriving DecidableEq, Repr

/-- The `CPU` struct. `memory: [u8; 0xFFFF]` is a function together with the
convention that only addresses `< 0xFFFF` are in bounds (see `memRead`). -/
structure CPU where
  register_a : Nat
  register_x : Nat
  register_y : Nat
  status : Nat
  program_counter : Nat
  stack_pointer : Nat
  memory : Nat → Nat

/-- Source `mem_read`: `self.memory[addr as usize]`; the array has length 0xFFFF, so
index 0xFFFF (the largest `u16`) panics. -/
def memRead (s : CPU) (addr : Nat) : Except Err Nat :=
  if addr < 0xFFFF then .ok (s.memory addr) else .error .memOutOfBounds

/-- Source `mem_write`: `self.memory[addr as usize] = data` with the same bound; the
stored cell is a `u8`, hence the `% 256`. -/
def memWrite (s : CPU) (addr data : Nat) : Except Err CPU :=
  if addr < 0xFFFF then
    .ok { s with memory := fun a => if a = addr then data % 256 else s.memory a }
  else .error .memOutOfBounds

/-- Source `mem_read_u16`: little-endian 16-bit read, low byte at `pos`. -/
def memReadU16 (s : CPU) (pos : Nat) : Except Err Nat := do
  let lo ← memRead s pos
  let hi ← memRead s (pos + 1)
  pure ((hi <<< 8) ||| lo)

/-- Source `mem_write_u16`: low byte at `pos`, high byte at `pos + 1`. -/
def memWriteU16 (s : CPU) (pos data : Nat) : Except Err CPU := do
  let s1 ← memWrite s pos (data &&& 0xff)
  memWrite s1 (pos + 1) ((data >>> 8) % 256)

/-- Source `CPU::new`. -/
def CPU.new : CPU :=
  { register_a := 0, register_x := 0, register_y := 0,
    status := 0b100100, program_counter := 0,
    stack_pointer := STACK_RESET, memory := fun _ => 0 }

/-- Source `CPU::reset`: clear registers, reload SP and P, fetch PC from 0xFFFC.
The two reads are at 0xFFFC and 0xFFFD, both in bounds, so this never
actually fails. -/
def CPU.reset (s : CPU) : Except Err CPU := do
  let pc ← memReadU16 s 0xFFFC
  pure { s with register_a := 0, register_x := 0, register_y := 0,
                program_counter := pc, stack_pointer := STACK_RESET,
                status := 0b100100 }

/-- Source `update_zero_and_negative_flags`. -/
def updateZeroAndNegativeFlags (st result : Nat) : Nat :=
  let st1 := if result = 0 then insertFlag st ZERO else removeFlag st ZERO
  if result &&& 0b10000000 != 0 then insertFlag st1 NEGATIVE else removeFlag st1 NEGATIVE

/-- Source `set_register_a`: assign A, then update Z/N from A. -/
def setRegisterA (s : CPU) (value : Nat) : CPU :=
  { s with register_a := value,
           status := updateZeroAndNegativeFlags s.status value }

/-- Source `add_to_register_a`: the ADC core. `sum` is computed in `u16`, the carry
is `sum > 0xFF`, the result is `sum as u8`, and the overflow test is
`(data ^ result) & (result ^ self.register_a) & 0x80 != 0` against the old
accumulator. -/
def addToRegisterA (s : CPU) (data : Nat) : CPU :=
  let sum := s.register_a + data + (if containsFlag s.status CARRY then 1 else 0)
  let carry := sum > 0xFF
  let st1 := if carry then insertFlag s.status CARRY else removeFlag s.status CARRY
  let result := sum % 256
  let st2 := if (data ^^^ result) &&& (result ^^^ s.register_a) &&& 0x80 != 0
             then insertFlag st1 OVERFLOW else removeFlag st1 OVERFLOW
  setRegisterA { s with status := st2 } result

/-- The operand transform of the SBC arm:
`((data as i8).wrapping_neg().wrapping_sub(1)) as u8`, i.e. two's-complement
negation followed by a wrapping decrement on the 8-bit pattern. -/
def sbcTransform (data : Nat) : Nat :=
  ((256 - data % 256) % 256 + 255) % 256

/-- Source `stack_pop`: increment SP (8-bit wrap), then read from 0x0100 + SP. -/
def stackPop (s : CPU) : Except Err (Nat × CPU) := do
  let sp := (s.stack_pointer + 1) % 256
  let s1 := { s with stack_pointer := sp }
  let v ← memRead s1 (STACK + sp)
  pure (v, s1)

/-- Source `stack_push`: write at 0x0100 + SP, then decrement SP (8-bit wrap). -/
def stackPush (s : CPU) (data : Nat) : Except Err CPU := do
  let s1 ← memWrite s (STACK + s.stack_pointer) data
  pure { s1 with stack_pointer := (s1.stack_pointer + 255) % 256 }

/-- Source `stack_push_u16`: push high byte, then low byte. -/
def stackPushU16 (s : CPU) (data : Nat) : Except Err CPU := do
  let s1 ← stackPush s ((data >>> 8) % 256)
  stackPush s1 (data &&& 0xff)

/-- Source `stack_pop_u16`: pop low byte, then high byte. -/
def stackPopU16 (s : CPU) : Except Err (Nat × CPU) := do
  let (lo, s1) ← stackPop s
  let (hi, s2) ← stackPop s1
  pure ((hi <<< 8) ||| lo, s2)

/-- Source `branch`: if the condition holds, read the signed 8-bit offset at PC and
set PC to `(PC + 1) + offset` with 16-bit wrap (`jump as u16` sign-extends). -/
def branch (s : CPU) (condition : Bool) : Except Err CPU :=
  if condition then do
    let jump ← memRead s s.program_counter
    let ext := if jump % 256 ≥ 128 then jump % 256 + 0xFF00 else jump % 256
    pure { s with program_counter := (s.program_counter + 1 + ext) % 65536 }
  else pure s

/-- Source `get_operand_address`. -/
def getOperandAddress (s : CPU) (mode : AddressingMode) : Except Err Nat :=
  match mode with
  | .Immediate => pure s.program_counter
  | .ZeroPage => memRead s s.program_counter
  | .Absolute => memReadU16 s s.program_counter
  | .ZeroPage_X => do
      let pos ← memRead s s.program_counter
      pure ((pos + s.register_x) % 256)
  | .ZeroPage_Y => do
      let pos ← memRead s s.program_counter
      pure ((pos + s.register_y) % 256)
  | .Absolute_X => do
      let base ← memReadU16 s s.program_counter
      pure ((base + s.register_x) % 65536)
  | .Absolute_Y => do
      let base ← memReadU16 s s.program_counter
      pure ((base + s.register_y) % 65536)
  | .Indirect_X => do
      let base ← memRead s s.program_counter
      let ptr := (base + s.register_x) % 256
      let lo ← memRead s ptr
      let hi ← memRead s ((ptr + 1) % 256)
      pure ((hi <<< 8) ||| lo)
  | .Indirect_Y => do
      let base ← memRead s s.program_counter
      let lo ← memRead s base
      let hi ← memRead s ((base + 1) % 256)
      pure ((((hi <<< 8) ||| lo) + s.register_y) % 65536)
  | .NoneAddressing => throw .modeMisuse

/-- The `LDA` arm of the dispatch, transcribed from `CPU::run`. -/
def opLDA (s : CPU) (mode : AddressingMode) : Except Err (Bool × CPU) := do
  let addr ← getOperandAddress s mode
  let value ← memRead s addr
  let s1 := { s with register_a := value }
  pure (true, { s1 with status := updateZeroAndNegativeFlags s1.status s1.register_a })

/-- The `LDX` arm of the dispatch, transcribed from `CPU::run`. -/
def opLDX (s : CPU) (mode : AddressingMode) : Except Err (Bool × CPU) := do
  let addr ← getOperandAddress s mode
  let value ← memRead s addr
  let s1 := { s with register_x := value }
  pure (true, { s1 with status := updateZeroAndNegativeFlags s1.status s1.register_x })

/-- The `LDY` arm of the dispatch, transcribed from `CPU::run`. -/
def opLDY (s : CPU) (mode : AddressingMode) : Except Err (Bool × CPU) := do
  let addr ← getOperandAddress s mode
  let value ← memRead s addr
  let s1 := { s with register_y := value }
  pure (true, { s1 with status := updateZeroAndNegativeFlags s1.status s1.register_y })

/-- The `STA` arm of the dispatch, transcribed from `CPU::run`. -/
def opSTA (s : CPU) (mode : AddressingMode) : Except Err (Bool × CPU) := do
  let addr ← getOperandAddress s mode
  let s1 ← memWrite s addr s.register_a
  pure (true, s1)

/-- The `STX` arm of the dispatch, transcribed from `CPU::run`. -/
def opSTX (s : CPU) (mode : AddressingMode) : Except Err (Bool × CPU) := do
  let addr ← getOperandAddress s mode
  let s1 ← memWrite s addr s.register_x
  pure (true, s1)

/-- The `STY` arm of the dispatch, transcribed from `CPU::run`. -/
def opSTY (s : CPU) (mode : AddressingMode) : Except Err (Bool × CPU) := do
  let addr ← getOperandAddress s mode
  let s1 ← memWrite s addr s.register_y
  pure (true, s1)

/-- The `TAX` arm of the dispatch, transcribed from `CPU::run`. -/
def opTAX (s : CPU) : Except Err (Bool × CPU) :=
  let s1 := { s with register_x := s.register_a }
  pure (true, { s1 with status := updateZeroAndNegativeFlags s1.status s1.register_x })

/-- The `TAY` arm of the dispatch, transcribed from `CPU::run`. -/
def opTAY (s : CPU) : Except Err (Bool × CPU) :=
  let s1 := { s with register_y := s.register_a }
  pure (true, { s1 with status := updateZeroAndNegativeFlags s1.status s1.register_y })

/-- The `TSX` arm of the dispatch, transcribed from `CPU::run`. -/
def opTSX (s : CPU) : Except Err (Bool × CPU) :=
  let s1 := { s with register_x := s.stack_pointer }
  pure (true, { s1 with status := updateZeroAndNegativeFlags s1.status s1.register_x })

/-- The `TXA` arm of the dispatch, transcribed from `CPU::run`. -/
def opTXA (s : CPU) : Except Err (Bool × CPU) :=
  let s1 := { s with register_a := s.register_x }
  pure (true, { s1 with status := updateZeroAndNegativeFlags s1.status s1.register_a })

/-- The `TYA` arm of the dispatch, transcribed from `CPU::run`. -/
def opTYA (s : CPU) : Except Err (Bool × CPU) :=
  let s1 := { s with register_a := s.register_y }
  pure (true, { s1 with status := updateZeroAndNegativeFlags s1.status s1.register_a })

/-- The `TXS` arm of the dispatch, transcribed from `CPU::run`. -/
def opTXS (s : CPU) : Except Err (Bool × CPU) :=
  pure (true, { s with stack_pointer := s.register_x })

/-- The `INX` arm of the dispatch, transcribed from `CPU::run`. -/
def opINX (s : CPU) : Except Err (Bool × CPU) :=
  let s1 := { s with register_x := (s.register_x + 1) % 256 }
  pure (true, { s1 with status := updateZeroAndNegativeFlags s1.status s1.register_x })

/-- The `INY` arm of the dispatch, transcribed from `CPU::run`. -/
def opINY (s : CPU) : Except Err (Bool × CPU) :=
  let s1 := { s with register_y := (s.register_y + 1) % 256 }
  pure (true, { s1 with status := updateZeroAndNegativeFlags s1.status s1.register_y })

/-- The `PHA` arm of the dispatch, transcribed from `CPU::run`. -/
def opPHA (s : CPU) : Except Err (Bool × CPU) := do
  let s1 ← stackPush s s.register_a
  pure (true, s1)

/-- The `PHP` arm of the dispatch, transcribed from `CPU::run`. -/
def opPHP (s : CPU) : Except Err (Bool × CPU) := do
  let flags := insertFlag (insertFlag s.status BREAK) BREAK2
  let s1 ← stackPush s flags
  pure (true, s1)

/-- The `PLA` arm of the dispatch, transcribed from `CPU::run`. -/
def opPLA (s : CPU) : Except Err (Bool × CPU) := do
  let (data, s1) ← stackPop s
  pure (true, setRegisterA s1 data)

/-- The `PLP` arm of the dispatch, transcribed from `CPU::run`. -/
def opPLP (s : CPU) : Except Err (Bool × CPU) := do
  let (bits, s1) ← stackPop s
  let st1 := insertFlag (removeFlag bits BREAK) BREAK2
  pure (true, { s1 with status := st1 })

/-- The `DEX` arm of the dispatch, transcribed from `CPU::run`. -/
def opDEX (s : CPU) : Except Err (Bool × CPU) :=
  let s1 := { s with register_x := (s.register_x + 255) % 256 }
  pure (true, { s1 with status := updateZeroAndNegativeFlags s1.status s1.register_x })

/-- The `DEY` arm of the dispatch, transcribed from `CPU::run`. -/
def opDEY (s : CPU) : Except Err (Bool × CPU) :=
  let s1 := { s with register_y := (s.register_y + 255) % 256 }
  pure (true, { s1 with status := updateZeroAndNegativeFlags s1.status s1.register_y })

/-- The `SEC` arm of the dispatch, transcribed from `CPU::run`. -/
def opSEC (s : CPU) : Except Err (Bool × CPU) :=
  pure (true, { s with status := insertFlag s.status CARRY })

/-- The `CLC` arm of the dispatch, transcribed from `CPU::run`. -/
def opCLC (s : CPU) : Except Err (Bool × CPU) :=
  pure (true, { s with status := removeFlag s.status CARRY })

/-- The `SEI` arm of the dispatch, transcribed from `CPU::run`. -/
def opSEI (s : CPU) : Except Err (Bool × CPU) :=
  pure (true, { s with status := insertFlag s.status INTERRUPT_DISABLE })

/-- The `CLI` arm of the dispatch, transcribed from `CPU::run`. -/
def opCLI (s : CPU) : Except Err (Bool × CPU) :=
  pure (true, { s with status := removeFlag s.status INTERRUPT_DISABLE })

/-- The `SED` arm of the dispatch, transcribed from `CPU::run`. -/
def opSED (s : CPU) : Except Err (Bool × CPU) :=
  pure (true, { s with status := insertFlag s.status DECIMAL_MODE })

/-- The `CLD` arm of the dispatch, transcribed from `CPU::run`. -/
def opCLD (s : CPU) : Except Err (Bool × CPU) :=
  pure (true, { s with status := removeFlag s.status DECIMAL_MODE })

/-- The `CLV` arm of the dispatch, transcribed from `CPU::run`. -/
def opCLV (s : CPU) : Except Err (Bool × CPU) :=
  pure (true, { s with status := removeFlag s.status OVERFLOW })

/-- The `ADC` arm of the dispatch, transcribed from `CPU::run`. -/
def opADC (s : CPU) (mode : AddressingMode) : Except Err (Bool × CPU) := do
  let addr ← getOperandAddress s mode
  let data ← memRead s addr
  pure (true, addToRegisterA s data)

/-- The `SBC` arm of the dispatch, transcribed from `CPU::run`. -/
def opSBC (s : CPU) (mode : AddressingMode) : Except Err (Bool × CPU) := do
  let addr ← getOperandAddress s mode
  let data ← memRead s addr
  pure (true, addToRegisterA s (sbcTransform data))

/-- The `CMP` arm of the dispatch, transcribed from `CPU::run`. -/
def opCMP (s : CPU) (mode : AddressingMode) : Except Err (Bool × CPU) := do
  let addr ← getOperandAddress s mode
  let data ← memRead s addr
  let st1 := if data ≤ s.register_a then insertFlag s.status CARRY
             else removeFlag s.status CARRY
  let diff := (s.register_a % 256 + 256 - data % 256) % 256
  pure (true, { s with status := updateZeroAndNegativeFlags st1 diff })

/-- The `CPX` arm of the dispatch, transcribed from `CPU::run`. -/
def opCPX (s : CPU) (mode : AddressingMode) : Except Err (Bool × CPU) := do
  let addr ← getOperandAddress s mode
  let data ← memRead s addr
  let st1 := if data ≤ s.register_x then insertFlag s.status CARRY
             else removeFlag s.status CARRY
  let diff := (s.register_x % 256 + 256 - data % 256) % 256
  pure (true, { s with status := updateZeroAndNegativeFlags st1 diff })

/-- The `CPY` arm of the dispatch, transcribed from `CPU::run`. -/
def opCPY (s : CPU) (mode : AddressingMode) : Except Err (Bool × CPU) := do
  let addr ← getOperandAddress s mode
  let data ← memRead s addr
  let st1 := if data ≤ s.register_y then insertFlag s.status CARRY
             else removeFlag s.status CARRY
  let diff := (s.register_y % 256 + 256 - data % 256) % 256
  pure (true, { s with status := updateZeroAndNegativeFlags st1 diff })

/-- The `ANDBits` arm of the dispatch, transcribed from `CPU::run`. -/
def opANDBits (s : CPU) (mode : AddressingMode) : Except Err (Bool × CPU) := do
  let addr ← getOperandAddress s mode
  let data ← memRead s addr
  pure (true, setRegisterA s (data &&& s.register_a))

/-- The `ORA` arm of the dispatch, transcribed from `CPU::run`. -/
def opORA (s : CPU) (mode : AddressingMode) : Except Err (Bool × CPU) := do
  let addr ← getOperandAddress s mode
  let data ← memRead s addr
  pure (true, setRegisterA s (data ||| s.register_a))

/-- The `EOR` arm of the dispatch, transcribed from `CPU::run`. -/
def opEOR (s : CPU) (mode : AddressingMode) : Except Err (Bool × CPU) := do
  let addr ← getOperandAddress s mode
  let data ← memRead s addr
  pure (true, setRegisterA s (data ^^^ s.register_a))

/-- The `BIT` arm of the dispatch, transcribed from `CPU::run`. -/
def opBIT (s : CPU) (mode : AddressingMode) : Except Err (Bool × CPU) := do
  let addr ← getOperandAddress s mode
  let data ← memRead s addr
  let andv := s.register_a &&& data
  let st1 := if andv = 0 then insertFlag s.status ZERO else removeFlag s.status ZERO
  let st2 := setFlag st1 NEGATIVE (decide (0 < data &&& 0b10000000))
  let st3 := setFlag st2 OVERFLOW (decide (0 < data &&& 0b01000000))
  pure (true, { s with status := st3 })

/-- The `ASLacc` arm of the dispatch, transcribed from `CPU::run`. -/
def opASLacc (s : CPU) : Except Err (Bool × CPU) :=
  let data := s.register_a
  let st1 := if data >>> 7 = 1 then insertFlag s.status CARRY
             else removeFlag s.status CARRY
  let data1 := (data <<< 1) % 256
  pure (true, setRegisterA { s with status := st1 } data1)

/-- The `ASLmem` arm of the dispatch, transcribed from `CPU::run`. -/
def opASLmem (s : CPU) (mode : AddressingMode) : Except Err (Bool × CPU) := do
  let addr ← getOperandAddress s mode
  let data ← memRead s addr
  let st1 := if data >>> 7 = 1 then insertFlag s.status CARRY
             else removeFlag s.status CARRY
  let data1 := (data <<< 1) % 256
  let s1 ← memWrite { s with status := st1 } addr data1
  pure (true, { s1 with status := updateZeroAndNegativeFlags s1.status data1 })

/-- The `LSRacc` arm of the dispatch, transcribed from `CPU::run`. -/
def opLSRacc (s : CPU) : Except Err (Bool × CPU) :=
  let data := s.register_a
  let st1 := if data >>> 7 = 1 then insertFlag s.status CARRY
             else removeFlag s.status CARRY
  let data1 := data >>> 1
  pure (true, setRegisterA { s with status := st1 } data1)

/-- The `LSRmem` arm of the dispatch, transcribed from `CPU::run`. -/
def opLSRmem (s : CPU) (mode : AddressingMode) : Except Err (Bool × CPU) := do
  let addr ← getOperandAddress s mode
  let data ← memRead s addr
  let st1 := if data &&& 1 = 1 then insertFlag s.status CARRY
             else removeFlag s.status CARRY
  let data1 := data >>> 1
  let s1 ← memWrite { s with status := st1 } addr data1
  pure (true, { s1 with status := updateZeroAndNegativeFlags s1.status data1 })

/-- The `ROLacc` arm of the dispatch, transcribed from `CPU::run`. -/
def opROLacc (s : CPU) : Except Err (Bool × CPU) :=
  let data := s.register_a
  let oldCarry := containsFlag s.status CARRY
  let st1 := if data >>> 7 = 1 then insertFlag s.status CARRY
             else removeFlag s.status CARRY
  let data1 := (data <<< 1) % 256
  let data2 := if oldCarry then data1 ||| 1 else data1
  pure (true, setRegisterA { s with status := st1 } data2)

/-- The `ROLmem` arm of the dispatch, transcribed from `CPU::run`. -/
def opROLmem (s : CPU) (mode : AddressingMode) : Except Err (Bool × CPU) := do
  let addr ← getOperandAddress s mode
  let data ← memRead s addr
  let oldCarry := containsFlag s.status CARRY
  let st1 := if data >>> 7 = 1 then insertFlag s.status CARRY
             else removeFlag s.status CARRY
  let data1 := (data <<< 1) % 256
  let data2 := if oldCarry then data1 ||| 1 else data1
  let s1 ← memWrite { s with status := st1 } addr data2
  pure (true, { s1 with status := updateZeroAndNegativeFlags s1.status data2 })

/-- The `RORacc` arm of the dispatch, transcribed from `CPU::run`. -/
def opRORacc (s : CPU) : Except Err (Bool × CPU) :=
  let data := s.register_a
  let oldCarry := containsFlag s.status CARRY
  let st1 := if data &&& 1 = 1 then insertFlag s.status CARRY
             else removeFlag s.status CARRY
  let data1 := data >>> 1
  let data2 := if oldCarry then data1 ||| 0b10000000 else data1
  pure (true, setRegisterA { s with status := st1 } data2)

/-- The `RORmem` arm of the dispatch, transcribed from `CPU::run`. -/
def opRORmem (s : CPU) (mode : AddressingMode) : Except Err (Bool × CPU) := do
  let addr ← getOperandAddress s mode
  let data ← memRead s addr
  let oldCarry := containsFlag s.status CARRY
  let st1 := if data &&& 1 = 1 then insertFlag s.status CARRY
             else removeFlag s.status CARRY
  let data1 := data >>> 1
  let data2 := if oldCarry then data1 ||| 0b10000000 else data1
  let s1 ← memWrite { s with status := st1 } addr data2
  pure (true, { s1 with status := updateZeroAndNegativeFlags s1.status data2 })

/-- The `INCmem` arm of the dispatch, transcribed from `CPU::run`. -/
def opINCmem (s : CPU) (mode : AddressingMode) : Except Err (Bool × CPU) := do
  let addr ← getOperandAddress s mode
  let data ← memRead s addr
  let s1 ← memWrite s addr ((data + 1) % 256)
  pure (true, { s1 with status := updateZeroAndNegativeFlags s1.status data })

/-- The `DECmem` arm of the dispatch, transcribed from `CPU::run`. -/
def opDECmem (s : CPU) (mode : AddressingMode) : Except Err (Bool × CPU) := do
  let addr ← getOperandAddress s mode
  let data ← memRead s addr
  let s1 ← memWrite s addr ((data % 256 + 255) % 256)
  pure (true, { s1 with status := updateZeroAndNegativeFlags s1.status data })

/-- The `BCC` arm of the dispatch, transcribed from `CPU::run`. -/
def opBCC (s : CPU) : Except Err (Bool × CPU) := do
  let s1 ← branch s (!containsFlag s.status CARRY)
  pure (true, s1)

/-- The `BCS` arm of the dispatch, transcribed from `CPU::run`. -/
def opBCS (s : CPU) : Except Err (Bool × CPU) := do
  let s1 ← branch s (containsFlag s.status CARRY)
  pure (true, s1)

/-- The `BEQ` arm of the dispatch, transcribed from `CPU::run`. -/
def opBEQ (s : CPU) : Except Err (Bool × CPU) := do
  let s1 ← branch s (containsFlag s.status ZERO)
  pure (true, s1)

/-- The `BNE` arm of the dispatch, transcribed from `CPU::run`. -/
def opBNE (s : CPU) : Except Err (Bool × CPU) := do
  let s1 ← branch s (!containsFlag s.status ZERO)
  pure (true, s1)

/-- The `BMI` arm of the dispatch, transcribed from `CPU::run`. -/
def opBMI (s : CPU) : Except Err (Bool × CPU) := do
  let s1 ← branch s (containsFlag s.status NEGATIVE)
  pure (true, s1)

/-- The `BPL` arm of the dispatch, transcribed from `CPU::run`. -/
def opBPL (s : CPU) : Except Err (Bool × CPU) := do
  let s1 ← branch s (!containsFlag s.status CARRY)
  pure (true, s1)

/-- The `BVC` arm of the dispatch, transcribed from `CPU::run`. -/
def opBVC (s : CPU) : Except Err (Bool × CPU) := do
  let s1 ← branch s (!containsFlag s.status OVERFLOW)
  pure (true, s1)

/-- The `BVS` arm of the dispatch, transcribed from `CPU::run`. -/
def opBVS (s : CPU) : Except Err (Bool × CPU) := do
  let s1 ← branch s (containsFlag s.status OVERFLOW)
  pure (true, s1)

/-- The `JMPabs` arm of the dispatch, transcribed from `CPU::run`. -/
def opJMPabs (s : CPU) : Except Err (Bool × CPU) := do
  let memAddress ← memReadU16 s s.program_counter
  pure (true, { s with program_counter := memAddress })

/-- The `JMPind` arm of the dispatch, transcribed from `CPU::run`. -/
def opJMPind (s : CPU) : Except Err (Bool × CPU) := do
  let memAddress ← memReadU16 s s.program_counter
  let iteRead : Except Err Nat :=
    if memAddress &&& 0x00FF = 0x00FF then do
      let lo ← memRead s memAddress
      let hi ← memRead s (memAddress &&& 0xFF00)
      pure ((hi <<< 8) ||| lo)
    else memReadU16 s memAddress
  let indirectRef ← iteRead
  pure (true, { s with program_counter := indirectRef })

/-- The `JSR` arm of the dispatch, transcribed from `CPU::run`. -/
def opJSR (s : CPU) : Except Err (Bool × CPU) := do
  let s1 ← stackPushU16 s ((s.program_counter + 2 - 1) % 65536)
  let targetAddress ← memReadU16 s1 s1.program_counter
  pure (true, { s1 with program_counter := targetAddress })

/-- The `RTS` arm of the dispatch, transcribed from `CPU::run`. -/
def opRTS (s : CPU) : Except Err (Bool × CPU) := do
  let (v, s1) ← stackPopU16 s
  pure (true, { s1 with program_counter := (v + 1) % 65536 })

/-- The `RTI` arm of the dispatch, transcribed from `CPU::run`. -/
def opRTI (s : CPU) : Except Err (Bool × CPU) := do
  let (flags, s1) ← stackPop s
  let st1 := setFlag s1.status CARRY (containsFlag flags CARRY)
  let st2 := setFlag st1 ZERO (containsFlag flags ZERO)
  let st3 := setFlag st2 INTERRUPT_DISABLE (containsFlag flags INTERRUPT_DISABLE)
  let st4 := setFlag st3 DECIMAL_MODE (containsFlag flags DECIMAL_MODE)
  let st5 := setFlag st4 BREAK (containsFlag flags BREAK)
  let st6 := setFlag st5 BREAK2 (containsFlag flags BREAK2)
  let st7 := setFlag st6 OVERFLOW (containsFlag flags OVERFLOW)
  let st8 := setFlag st7 NEGATIVE (containsFlag flags NEGATIVE)
  let st9 := insertFlag (removeFlag st8 BREAK) BREAK2
  let (pcv, s2) ← stackPopU16 { s1 with status := st9 }
  pure (true, { s2 with program_counter := pcv })

/-- The `BRK` arm of the dispatch, transcribed from `CPU::run`. -/
def opBRK (s : CPU) : Except Err (Bool × CPU) :=
  pure (false, s)

/-- The big `match code` of `CPU::run`, one arm per opcode group (including
the arms the opcode table can never reach, the source's use of CARRY in the
BPL arm, and the pre-modification value feeding Z/N in INC/DEC). The boolean
is `false` exactly for the `return` of the BRK/NOP arm; `mode` comes from the
table descriptor. -/
def dispatch (s : CPU) (mode : AddressingMode) (code : Nat) : Except Err (Bool × CPU) :=
  if code = 0xa9 ∨ code = 0xa5 ∨ code = 0xad ∨ code = 0xbd ∨ code = 0xb9 ∨ code = 0xa1 ∨ code = 0xb1 then opLDA s mode
  else if code = 0xA2 ∨ code = 0xA6 ∨ code = 0xB6 ∨ code = 0xAE ∨ code = 0xBE then opLDX s mode
  else if code = 0xA0 ∨ code = 0xA4 ∨ code = 0xB4 ∨ code = 0xAC ∨ code = 0xBC then opLDY s mode
  else if code = 0x85 ∨ code = 0x95 ∨ code = 0x8D ∨ code = 0x9D ∨ code = 0x99 ∨ code = 0x81 ∨ code = 0x91 then opSTA s mode
  else if code = 0x86 ∨ code = 0x96 ∨ code = 0x8E then opSTX s mode
  else if code = 0x84 ∨ code = 0x94 ∨ code = 0x8C then opSTY s mode
  else if code = 0xAA then opTAX s
  else if code = 0xA8 then opTAY s
  else if code = 0xBA then opTSX s
  else if code = 0x8A then opTXA s
  else if code = 0x98 then opTYA s
  else if code = 0x9A then opTXS s
  else if code = 0xe8 then opINX s
  else if code = 0xC8 then opINY s
  else if code = 0x48 then opPHA s
  else if code = 0x08 then opPHP s
  else if code = 0x68 then opPLA s
  else if code = 0x28 then opPLP s
  else if code = 0xCA then opDEX s
  else if code = 0x88 then opDEY s
  else if code = 0x38 then opSEC s
  else if code = 0x18 then opCLC s
  else if code = 0x78 then opSEI s
  else if code = 0x58 then opCLI s
  else if code = 0xF8 then opSED s
  else if code = 0xD8 then opCLD s
  else if code = 0xB8 then opCLV s
  else if code = 0x69 ∨ code = 0x65 ∨ code = 0x75 ∨ code = 0x6d ∨ code = 0x7d ∨ code = 0x79 ∨ code = 0x61 ∨ code = 0x71 then opADC s mode
  else if code = 0xE9 ∨ code = 0xE5 ∨ code = 0xF5 ∨ code = 0xED ∨ code = 0xFD ∨ code = 0xF9 ∨ code = 0xE1 ∨ code = 0xF1 then opSBC s mode
  else if code = 0xC9 ∨ code = 0xC5 ∨ code = 0xD5 ∨ code = 0xCD ∨ code = 0xDD ∨ code = 0xD9 ∨ code = 0xC1 ∨ code = 0xD1 then opCMP s mode
  else if code = 0xE0 ∨ code = 0xE4 ∨ code = 0xEC then opCPX s mode
  else if code = 0xC0 ∨ code = 0xC4 ∨ code = 0xCC then opCPY s mode
  else if code = 0x29 ∨ code = 0x25 ∨ code = 0x35 ∨ code = 0x2D ∨ code = 0x3D ∨ code = 0x39 ∨ code = 0x21 ∨ code = 0x31 then opANDBits s mode
  else if code = 0x09 ∨ code = 0x05 ∨ code = 0x15 ∨ code = 0x0D ∨ code = 0x1D ∨ code = 0x19 ∨ code = 0x01 ∨ code = 0x11 then opORA s mode
  else if code = 0x49 ∨ code = 0x45 ∨ code = 0x55 ∨ code = 0x4D ∨ code = 0x5D ∨ code = 0x59 ∨ code = 0x41 ∨ code = 0x51 then opEOR s mode
  else if code = 0x24 ∨ code = 0x2C then opBIT s mode
  else if code = 0x0A then opASLacc s
  else if code = 0x06 ∨ code = 0x16 ∨ code = 0x0E ∨ code = 0x1E then opASLmem s mode
  else if code = 0x4A then opLSRacc s
  else if code = 0x46 ∨ code = 0x56 ∨ code = 0x4E ∨ code = 0x5E then opLSRmem s mode
  else if code = 0x2A then opROLacc s
  else if code = 0x26 ∨ code = 0x36 ∨ code = 0x2E ∨ code = 0x3E then opROLmem s mode
  else if code = 0x6A then opRORacc s
  else if code = 0x66 ∨ code = 0x76 ∨ code = 0x6E ∨ code = 0x7E then opRORmem s mode
  else if code = 0xE6 ∨ code = 0xF6 ∨ code = 0xEE ∨ code = 0xFE then opINCmem s mode
  else if code = 0xC6 ∨ code = 0xD6 ∨ code = 0xCE ∨ code = 0xDE then opDECmem s mode
  else if code = 0x90 then opBCC s
  else if code = 0xB0 then opBCS s
  else if code = 0xF0 then opBEQ s
  else if code = 0xD0 then opBNE s
  else if code = 0x30 then opBMI s
  else if code = 0x10 then opBPL s
  else if code = 0x50 then opBVC s
  else if code = 0x70 then opBVS s
  else if code = 0x4c then opJMPabs s
  else if code = 0x6c then opJMPind s
  else if code = 0x20 then opJSR s
  else if code = 0x60 then opRTS s
  else if code = 0x40 then opRTI s
  else if code = 0x00 ∨ code = 0xEA then opBRK s
  else throw .notImplemented
/-- One iteration of the `loop` in `CPU::run`: fetch, advance PC, look the
opcode up in the table (`expect` aborts when it is absent), dispatch, and
advance PC by `len - 1` when the handler left it untouched. `false` in the
result marks the `return` on BRK/NOP. -/
def step (s : CPU) : Except Err (Bool × CPU) := do
  let code ← memRead s s.program_counter
  let s1 := { s with program_counter := (s.program_counter + 1) % 65536 }
  let pcState := s1.program_counter
  match lookupOp code with
  | none => throw (.unknownOpcode code)
  | some op => do
      let (cont, s2) ← dispatch s1 op.mode code
      if cont then
        if pcState = s2.program_counter then
          pure (true, { s2 with program_counter := (s2.program_counter + (op.len - 1)) % 65536 })
        else pure (true, s2)
      else pure (false, s2)

/-- Fuel-indexed unfolding of the `loop` in `CPU::run`; `none` means the fuel
ran out before the loop returned or aborted. -/
def runFuel (fuel : Nat) (s : CPU) : Option (Except Err CPU) :=
  match fuel with
  | 0 => none
  | n + 1 =>
    match step s with
    | .error e => some (.error e)
    | .ok (false, s1) => some (.ok s1)
    | .ok (true, s1) => runFuel n s1

/-- Helper for `CPU::load`: the `copy_from_slice` into
`memory[0x8000 .. 0x8000 + program.len()]`, cell by cell. -/
def storeList (m : Nat → Nat) (addr : Nat) (l : List Nat) : Nat → Nat :=
  match l with
  | [] => m
  | b :: rest => storeList (fun a => if a = addr then b % 256 else m a) (addr + 1) rest

/-- Source `CPU::load`: copy the program image to 0x8000 and point the reset vector
at it. The slice `self.memory[0x8000..(0x8000 + program.len())]` is valid
only when its end does not exceed the array length 0xFFFF; otherwise the
indexing panics before anything is copied. -/
def CPU.load (s : CPU) (program : List Nat) : Except Err CPU :=
  if 0x8000 + program.length ≤ 0xFFFF then
    memWriteU16 { s with memory := storeList s.memory 0x8000 program } 0xFFFC 0x8000
  else .error .memOutOfBounds

/-- Source `CPU::load_and_run`: load, reset, run (with the given fuel). -/
def loadAndRun (program : List Nat) (fuel : Nat) : Option (Except Err CPU) :=
  match CPU.load CPU.new program with
  | .error e => some (.error e)
  | .ok s1 =>
    match CPU.reset s1 with
    | .error e => some (.error e)
    | .ok s2 => runFuel fuel s2

/-! Helper lemmas about the flag-byte algebra. -/

theorem land_lor_right (a b c : Nat) : (a ||| b) &&& c = (a &&& c) ||| (b &&& c) := by
  apply Nat.eq_of_testBit_eq
  intro i
  simp only [Nat.testBit_land, Nat.testBit_lor]
  cases a.testBit i <;> cases b.testBit i <;> cases c.testBit i <;> rfl

theorem lor_eq_zero_right (a b : Nat) (h : a ||| b = 0) : b = 0 := by
  apply Nat.eq_of_testBit_eq
  intro i
  have h2 := congrArg (fun x => Nat.testBit x i) h
  simp only [Nat.testBit_lor, Nat.zero_testBit] at h2
  rcases Bool.or_eq_false_iff.mp h2 with ⟨_, h3⟩
  simp [h3]

theorem mod256_eq_land (x : Nat) : x % 256 = x &&& 255 := by
  have h := Nat.and_pow_two_sub_one_eq_mod x 8
  norm_num at h
  omega

theorem containsFlag_lor_zero (st g f : Nat) (h : g &&& f = 0) :
    containsFlag (st ||| g) f = containsFlag st f := by
  unfold containsFlag
  rw [land_lor_right, h]
  simp

theorem containsFlag_lor_high (st g f : Nat) (h : g &&& f = f) (hf : 0 < f) :
    containsFlag (st ||| g) f = true := by
  unfold containsFlag
  rw [land_lor_right, h]
  have hne : (st &&& f) ||| f ≠ 0 := by
    intro h0
    have := lor_eq_zero_right _ _ h0
    omega
  simpa using hne

theorem containsFlag_land_keep (st m f : Nat) (h : m &&& f = f) :
    containsFlag (st &&& m) f = containsFlag st f := by
  unfold containsFlag
  rw [Nat.land_assoc, h]

theorem containsFlag_land_zero (st m f : Nat) (h : m &&& f = 0) :
    containsFlag (st &&& m) f = false := by
  unfold containsFlag
  rw [Nat.land_assoc, h]
  simp [Nat.and_zero]

theorem containsFlag_land_false (st m f : Nat) (h : containsFlag st f = false) :
    containsFlag (st &&& m) f = false := by
  have h0 : st &&& f = 0 := by simpa [containsFlag] using h
  unfold containsFlag
  rw [Nat.land_assoc, Nat.land_comm m f, ← Nat.land_assoc, h0]
  simp

theorem bind_ok {α β : Type} (x : Except Err α) (f : α → Except Err β) (b : β)
    (h : x >>= f = .ok b) : ∃ a, x = .ok a ∧ f a = .ok b := by
  cases x with
  | error e =>
      simp only [show (Except.error e >>= f : Except Err β) = Except.error e from rfl] at h
      exact Except.noConfusion h
  | ok a => exact ⟨a, rfl, h⟩

/-! The BREAK bit of the live status register: invariance lemmas. -/

/-- BREAK is clear in a flag byte. -/
def breakClear (st : Nat) : Prop := containsFlag st BREAK = false

instance (st : Nat) : Decidable (breakClear st) := by
  unfold breakClear
  infer_instance

theorem bc_insert (st f : Nat) (h : breakClear st) (hf : f &&& BREAK = 0) :
    breakClear (insertFlag st f) := by
  unfold breakClear insertFlag at *
  rw [containsFlag_lor_zero _ _ _ hf]
  exact h

theorem bc_remove (st f : Nat) (h : breakClear st) : breakClear (removeFlag st f) := by
  unfold breakClear removeFlag at *
  exact containsFlag_land_false _ _ _ h

theorem bc_removeBREAK (st : Nat) : breakClear (removeFlag st BREAK) := by
  unfold breakClear removeFlag
  exact containsFlag_land_zero _ _ _ (by decide)

theorem bc_setFlag (st f : Nat) (b : Bool) (h : breakClear st) (hf : f &&& BREAK = 0) :
    breakClear (setFlag st f b) := by
  unfold setFlag
  split
  · exact bc_insert st f h hf
  · exact bc_remove st f h

theorem bc_updateZN (st r : Nat) (h : breakClear st) :
    breakClear (updateZeroAndNegativeFlags st r) := by
  unfold updateZeroAndNegativeFlags
  split_ifs with h1 h2 h3
  · exact bc_insert _ NEGATIVE (bc_insert _ ZERO h (by decide)) (by decide)
  · exact bc_remove _ NEGATIVE (bc_insert _ ZERO h (by decide))
  · exact bc_insert _ NEGATIVE (bc_remove _ ZERO h) (by decide)
  · exact bc_remove _ NEGATIVE (bc_remove _ ZERO h)

theorem bc_addToRegisterA (s : CPU) (data : Nat) (h : breakClear s.status) :
    breakClear (addToRegisterA s data).status := by
  unfold addToRegisterA setRegisterA
  dsimp only
  apply bc_updateZN
  split_ifs <;>
    first
    | exact bc_insert _ OVERFLOW (bc_insert _ CARRY h (by decide)) (by decide)
    | exact bc_insert _ OVERFLOW (bc_remove _ CARRY h) (by decide)
    | exact bc_remove _ OVERFLOW (bc_insert _ CARRY h (by decide))
    | exact bc_remove _ OVERFLOW (bc_remove _ CARRY h)

/-! Framing lemmas: which helpers leave the status register untouched. -/

theorem memWrite_status (s : CPU) (addr d : Nat) (s' : CPU)
    (h : memWrite s addr d = .ok s') : s'.status = s.status := by
  unfold memWrite at h
  split at h
  · cases h
    rfl
  · exact Except.noConfusion h

theorem stackPush_status (s : CPU) (d : Nat) (s' : CPU)
    (h : stackPush s d = .ok s') : s'.status = s.status := by
  unfold stackPush at h
  obtain ⟨s1, hw, hf⟩ := bind_ok _ _ _ h
  simp only [pure, Except.pure, Except.ok.injEq] at hf
  rw [← hf]
  show s1.status = s.status
  exact memWrite_status _ _ _ _ hw

theorem stackPushU16_status (s : CPU) (d : Nat) (s' : CPU)
    (h : stackPushU16 s d = .ok s') : s'.status = s.status := by
  unfold stackPushU16 at h
  obtain ⟨s1, hw, hf⟩ := bind_ok _ _ _ h
  rw [stackPush_status _ _ _ hf, stackPush_status _ _ _ hw]

theorem stackPop_status (s : CPU) (v : Nat) (s' : CPU)
    (h : stackPop s = .ok (v, s')) : s'.status = s.status := by
  unfold stackPop at h
  obtain ⟨a, _, hf⟩ := bind_ok _ _ _ h
  simp only [pure, Except.pure, Except.ok.injEq, Prod.mk.injEq] at hf
  rw [← hf.2]

theorem stackPopU16_status (s : CPU) (v : Nat) (s' : CPU)
    (h : stackPopU16 s = .ok (v, s')) : s'.status = s.status := by
  unfold stackPopU16 at h
  obtain ⟨p, h1, hf⟩ := bind_ok _ _ _ h
  obtain ⟨lo, s1⟩ := p
  obtain ⟨q, h2, hf2⟩ := bind_ok _ _ _ hf
  obtain ⟨hi, s2⟩ := q
  simp only [pure, Except.pure, Except.ok.injEq, Prod.mk.injEq] at hf2
  rw [← hf2.2, stackPop_status _ _ _ h2, stackPop_status _ _ _ h1]

theorem branch_status (s : CPU) (c : Bool) (s' : CPU)
    (h : branch s c = .ok s') : s'.status = s.status := by
  unfold branch at h
  split at h
  · obtain ⟨j, _, hf⟩ := bind_ok _ _ _ h
    simp only [pure, Except.pure, Except.ok.injEq] at hf
    rw [← hf]
  · simp only [pure, Except.pure, Except.ok.injEq] at h
    rw [← h]

/-- Status register after a dispatch result: the new state's status on
success, the unchanged status of the starting state on an abort. -/
def statusAfter (r : Except Err (Bool × CPU)) (s : CPU) : Nat :=
  match r with
  | .ok (_, s') => s'.status
  | .error _ => s.status

theorem bc_iteInsertRemove (c : Prop) [Decidable c] (st f : Nat)
    (h : breakClear st) (hf : f &&& BREAK = 0) :
    breakClear (if c then insertFlag st f else removeFlag st f) := by
  split
  · exact bc_insert st f h hf
  · exact bc_remove st f h

theorem sa_ite (c : Prop) [Decidable c] (x y : Except Err (Bool × CPU)) (s : CPU)
    (hx : c → breakClear (statusAfter x s))
    (hy : ¬c → breakClear (statusAfter y s)) :
    breakClear (statusAfter (if c then x else y) s) := by
  split
  · exact hx (by assumption)
  · exact hy (by assumption)

theorem sa_bind {α : Type} (x : Except Err α) (f : α → Except Err (Bool × CPU)) (s : CPU)
    (hs : breakClear s.status)
    (hf : ∀ a, x = .ok a → breakClear (statusAfter (f a) s)) :
    breakClear (statusAfter (x >>= f) s) := by
  cases x with
  | error e => exact hs
  | ok a => exact hf a rfl

theorem bc_opLDA (s : CPU) (mode : AddressingMode) (hs : breakClear s.status) :
    breakClear (statusAfter (opLDA s mode) s) :=
  sa_bind _ _ _ hs (fun _ _ => sa_bind _ _ _ hs (fun _ _ => bc_updateZN _ _ hs))

theorem bc_opLDX (s : CPU) (mode : AddressingMode) (hs : breakClear s.status) :
    breakClear (statusAfter (opLDX s mode) s) :=
  sa_bind _ _ _ hs (fun _ _ => sa_bind _ _ _ hs (fun _ _ => bc_updateZN _ _ hs))

theorem bc_opLDY (s : CPU) (mode : AddressingMode) (hs : breakClear s.status) :
    breakClear (statusAfter (opLDY s mode) s) :=
  sa_bind _ _ _ hs (fun _ _ => sa_bind _ _ _ hs (fun _ _ => bc_updateZN _ _ hs))

theorem bc_opSTA (s : CPU) (mode : AddressingMode) (hs : breakClear s.status) :
    breakClear (statusAfter (opSTA s mode) s) :=
  sa_bind _ _ _ hs (fun _ _ => sa_bind _ _ _ hs (fun s1 hw => by
    have h2 := memWrite_status _ _ _ _ hw
    show breakClear s1.status
    rw [h2]
    exact hs))

theorem bc_opSTX (s : CPU) (mode : AddressingMode) (hs : breakClear s.status) :
    breakClear (statusAfter (opSTX s mode) s) :=
  sa_bind _ _ _ hs (fun _ _ => sa_bind _ _ _ hs (fun s1 hw => by
    have h2 := memWrite_status _ _ _ _ hw
    show breakClear s1.status
    rw [h2]
    exact hs))

theorem bc_opSTY (s : CPU) (mode : AddressingMode) (hs : breakClear s.status) :
    breakClear (statusAfter (opSTY s mode) s) :=
  sa_bind _ _ _ hs (fun _ _ => sa_bind _ _ _ hs (fun s1 hw => by
    have h2 := memWrite_status _ _ _ _ hw
    show breakClear s1.status
    rw [h2]
    exact hs))

theorem bc_opTAX (s : CPU) (hs : breakClear s.status) :
    breakClear (statusAfter (opTAX s) s) := bc_updateZN _ _ hs

theorem bc_opTAY (s : CPU) (hs : breakClear s.status) :
    breakClear (statusAfter (opTAY s) s) := bc_updateZN _ _ hs

theorem bc_opTSX (s : CPU) (hs : breakClear s.status) :
    breakClear (statusAfter (opTSX s) s) := bc_updateZN _ _ hs

theorem bc_opTXA (s : CPU) (hs : breakClear s.status) :
    breakClear (statusAfter (opTXA s) s) := bc_updateZN _ _ hs

theorem bc_opTYA (s : CPU) (hs : breakClear s.status) :
    breakClear (statusAfter (opTYA s) s) := bc_updateZN _ _ hs

theorem bc_opTXS (s : CPU) (hs : breakClear s.status) :
    breakClear (statusAfter (opTXS s) s) := hs

theorem bc_opINX (s : CPU) (hs : breakClear s.status) :
    breakClear (statusAfter (opINX s) s) := bc_updateZN _ _ hs

theorem bc_opINY (s : CPU) (hs : breakClear s.status) :
    breakClear (statusAfter (opINY s) s) := bc_updateZN _ _ hs

theorem bc_opPHA (s : CPU) (hs : breakClear s.status) :
    breakClear (statusAfter (opPHA s) s) :=
  sa_bind _ _ _ hs (fun s1 hp => by
    have h2 := stackPush_status _ _ _ hp
    show breakClear s1.status
    rw [h2]
    exact hs)

theorem bc_opPHP (s : CPU) (hs : breakClear s.status) :
    breakClear (statusAfter (opPHP s) s) :=
  sa_bind _ _ _ hs (fun s1 hp => by
    have h2 := stackPush_status _ _ _ hp
    show breakClear s1.status
    rw [h2]
    exact hs)

theorem bc_opPLA (s : CPU) (hs : breakClear s.status) :
    breakClear (statusAfter (opPLA s) s) :=
  sa_bind _ _ _ hs (fun p hp => by
    obtain ⟨v, s1⟩ := p
    have h2 := stackPop_status _ _ _ hp
    show breakClear (updateZeroAndNegativeFlags s1.status _)
    rw [h2]
    exact bc_updateZN _ _ hs)

theorem bc_opPLP (s : CPU) (hs : breakClear s.status) :
    breakClear (statusAfter (opPLP s) s) :=
  sa_bind _ _ _ hs (fun p hp => by
    obtain ⟨bits, s1⟩ := p
    exact bc_insert _ BREAK2 (bc_removeBREAK bits) (by decide))

theorem bc_opDEX (s : CPU) (hs : breakClear s.status) :
    breakClear (statusAfter (opDEX s) s) := bc_updateZN _ _ hs

theorem bc_opDEY (s : CPU) (hs : breakClear s.status) :
    breakClear (statusAfter (opDEY s) s) := bc_updateZN _ _ hs

theorem bc_opSEC (s : CPU) (hs : breakClear s.status) :
    breakClear (statusAfter (opSEC s) s) := bc_insert _ CARRY hs (by decide)

theorem bc_opCLC (s : CPU) (hs : breakClear s.status) :
    breakClear (statusAfter (opCLC s) s) := bc_remove _ CARRY hs

theorem bc_opSEI (s : CPU) (hs : breakClear s.status) :
    breakClear (statusAfter (opSEI s) s) := bc_insert _ INTERRUPT_DISABLE hs (by decide)

theorem bc_opCLI (s : CPU) (hs : breakClear s.status) :
    breakClear (statusAfter (opCLI s) s) := bc_remove _ INTERRUPT_DISABLE hs

theorem bc_opSED (s : CPU) (hs : breakClear s.status) :
    breakClear (statusAfter (opSED s) s) := bc_insert _ DECIMAL_MODE hs (by decide)

theorem bc_opCLD (s : CPU) (hs : breakClear s.status) :
    breakClear (statusAfter (opCLD s) s) := bc_remove _ DECIMAL_MODE hs

theorem bc_opCLV (s : CPU) (hs : breakClear s.status) :
    breakClear (statusAfter (opCLV s) s) := bc_remove _ OVERFLOW hs

theorem bc_opADC (s : CPU) (mode : AddressingMode) (hs : breakClear s.status) :
    breakClear (statusAfter (opADC s mode) s) :=
  sa_bind _ _ _ hs (fun _ _ => sa_bind _ _ _ hs (fun _ _ => bc_addToRegisterA _ _ hs))

theorem bc_opSBC (s : CPU) (mode : AddressingMode) (hs : breakClear s.status) :
    breakClear (statusAfter (opSBC s mode) s) :=
  sa_bind _ _ _ hs (fun _ _ => sa_bind _ _ _ hs (fun _ _ => bc_addToRegisterA _ _ hs))

theorem bc_opCMP (s : CPU) (mode : AddressingMode) (hs : breakClear s.status) :
    breakClear (statusAfter (opCMP s mode) s) :=
  sa_bind _ _ _ hs (fun _ _ => sa_bind _ _ _ hs (fun _ _ =>
    bc_updateZN _ _ (bc_iteInsertRemove _ _ _ hs (by decide))))

theorem bc_opCPX (s : CPU) (mode : AddressingMode) (hs : breakClear s.status) :
    breakClear (statusAfter (opCPX s mode) s) :=
  sa_bind _ _ _ hs (fun _ _ => sa_bind _ _ _ hs (fun _ _ =>
    bc_updateZN _ _ (bc_iteInsertRemove _ _ _ hs (by decide))))

theorem bc_opCPY (s : CPU) (mode : AddressingMode) (hs : breakClear s.status) :
    breakClear (statusAfter (opCPY s mode) s) :=
  sa_bind _ _ _ hs (fun _ _ => sa_bind _ _ _ hs (fun _ _ =>
    bc_updateZN _ _ (bc_iteInsertRemove _ _ _ hs (by decide))))

theorem bc_opANDBits (s : CPU) (mode : AddressingMode) (hs : breakClear s.status) :
    breakClear (statusAfter (opANDBits s mode) s) :=
  sa_bind _ _ _ hs (fun _ _ => sa_bind _ _ _ hs (fun _ _ => bc_updateZN _ _ hs))

theorem bc_opORA (s : CPU) (mode : AddressingMode) (hs : breakClear s.status) :
    breakClear (statusAfter (opORA s mode) s) :=
  sa_bind _ _ _ hs (fun _ _ => sa_bind _ _ _ hs (fun _ _ => bc_updateZN _ _ hs))

theorem bc_opEOR (s : CPU) (mode : AddressingMode) (hs : breakClear s.status) :
    breakClear (statusAfter (opEOR s mode) s) :=
  sa_bind _ _ _ hs (fun _ _ => sa_bind _ _ _ hs (fun _ _ => bc_updateZN _ _ hs))

theorem bc_opBIT (s : CPU) (mode : AddressingMode) (hs : breakClear s.status) :
    breakClear (statusAfter (opBIT s mode) s) :=
  sa_bind _ _ _ hs (fun _ _ => sa_bind _ _ _ hs (fun _ _ =>
    bc_setFlag _ _ _ (bc_setFlag _ _ _ (bc_iteInsertRemove _ _ _ hs (by decide))
      (by decide)) (by decide)))

theorem bc_opASLacc (s : CPU) (hs : breakClear s.status) :
    breakClear (statusAfter (opASLacc s) s) :=
  bc_updateZN _ _ (bc_iteInsertRemove _ _ _ hs (by decide))

theorem bc_opASLmem (s : CPU) (mode : AddressingMode) (hs : breakClear s.status) :
    breakClear (statusAfter (opASLmem s mode) s) :=
  sa_bind _ _ _ hs (fun _ _ => sa_bind _ _ _ hs (fun _ _ =>
    sa_bind _ _ _ hs (fun s1 hw => by
      have h2 := memWrite_status _ _ _ _ hw
      show breakClear (updateZeroAndNegativeFlags s1.status _)
      rw [h2]
      exact bc_updateZN _ _ (bc_iteInsertRemove _ _ _ hs (by decide)))))

theorem bc_opLSRacc (s : CPU) (hs : breakClear s.status) :
    breakClear (statusAfter (opLSRacc s) s) :=
  bc_updateZN _ _ (bc_iteInsertRemove _ _ _ hs (by decide))

theorem bc_opLSRmem (s : CPU) (mode : AddressingMode) (hs : breakClear s.status) :
    breakClear (statusAfter (opLSRmem s mode) s) :=
  sa_bind _ _ _ hs (fun _ _ => sa_bind _ _ _ hs (fun _ _ =>
    sa_bind _ _ _ hs (fun s1 hw => by
      have h2 := memWrite_status _ _ _ _ hw
      show breakClear (updateZeroAndNegativeFlags s1.status _)
      rw [h2]
      exact bc_updateZN _ _ (bc_iteInsertRemove _ _ _ hs (by decide)))))

theorem bc_opROLacc (s : CPU) (hs : breakClear s.status) :
    breakClear (statusAfter (opROLacc s) s) :=
  bc_updateZN _ _ (bc_iteInsertRemove _ _ _ hs (by decide))

theorem bc_opROLmem (s : CPU) (mode : AddressingMode) (hs : breakClear s.status) :
    breakClear (statusAfter (opROLmem s mode) s) :=
  sa_bind _ _ _ hs (fun _ _ => sa_bind _ _ _ hs (fun _ _ =>
    sa_bind _ _ _ hs (fun s1 hw => by
      have h2 := memWrite_status _ _ _ _ hw
      show breakClear (updateZeroAndNegativeFlags s1.status _)
      rw [h2]
      exact bc_updateZN _ _ (bc_iteInsertRemove _ _ _ hs (by decide)))))

theorem bc_opRORacc (s : CPU) (hs : breakClear s.status) :
    breakClear (statusAfter (opRORacc s) s) :=
  bc_updateZN _ _ (bc_iteInsertRemove _ _ _ hs (by decide))

theorem bc_opRORmem (s : CPU) (mode : AddressingMode) (hs : breakClear s.status) :
    breakClear (statusAfter (opRORmem s mode) s) :=
  sa_bind _ _ _ hs (fun _ _ => sa_bind _ _ _ hs (fun _ _ =>
    sa_bind _ _ _ hs (fun s1 hw => by
      have h2 := memWrite_status _ _ _ _ hw
      show breakClear (updateZeroAndNegativeFlags s1.status _)
      rw [h2]
      exact bc_updateZN _ _ (bc_iteInsertRemove _ _ _ hs (by decide)))))

theorem bc_opINCmem (s : CPU) (mode : AddressingMode) (hs : breakClear s.status) :
    breakClear (statusAfter (opINCmem s mode) s) :=
  sa_bind _ _ _ hs (fun _ _ => sa_bind _ _ _ hs (fun _ _ =>
    sa_bind _ _ _ hs (fun s1 hw => by
      have h2 := memWrite_status _ _ _ _ hw
      show breakClear (updateZeroAndNegativeFlags s1.status _)
      rw [h2]
      exact bc_updateZN _ _ hs)))

theorem bc_opDECmem (s : CPU) (mode : AddressingMode) (hs : breakClear s.status) :
    breakClear (statusAfter (opDECmem s mode) s) :=
  sa_bind _ _ _ hs (fun _ _ => sa_bind _ _ _ hs (fun _ _ =>
    sa_bind _ _ _ hs (fun s1 hw => by
      have h2 := memWrite_status _ _ _ _ hw
      show breakClear (updateZeroAndNegativeFlags s1.status _)
      rw [h2]
      exact bc_updateZN _ _ hs)))

theorem bc_opBCC (s : CPU) (hs : breakClear s.status) :
    breakClear (statusAfter (opBCC s) s) :=
  sa_bind _ _ _ hs (fun s1 hb => by
    have h2 := branch_status _ _ _ hb
    show breakClear s1.status
    rw [h2]
    exact hs)

theorem bc_opBCS (s : CPU) (hs : breakClear s.status) :
    breakClear (statusAfter (opBCS s) s) :=
  sa_bind _ _ _ hs (fun s1 hb => by
    have h2 := branch_status _ _ _ hb
    show breakClear s1.status
    rw [h2]
    exact hs)

theorem bc_opBEQ (s : CPU) (hs : breakClear s.status) :
    breakClear (statusAfter (opBEQ s) s) :=
  sa_bind _ _ _ hs (fun s1 hb => by
    have h2 := branch_status _ _ _ hb
    show breakClear s1.status
    rw [h2]
    exact hs)

theorem bc_opBNE (s : CPU) (hs : breakClear s.status) :
    breakClear (statusAfter (opBNE s) s) :=
  sa_bind _ _ _ hs (fun s1 hb => by
    have h2 := branch_status _ _ _ hb
    show breakClear s1.status
    rw [h2]
    exact hs)

theorem bc_opBMI (s : CPU) (hs : breakClear s.status) :
    breakClear (statusAfter (opBMI s) s) :=
  sa_bind _ _ _ hs (fun s1 hb => by
    have h2 := branch_status _ _ _ hb
    show breakClear s1.status
    rw [h2]
    exact hs)

theorem bc_opBPL (s : CPU) (hs : breakClear s.status) :
    breakClear (statusAfter (opBPL s) s) :=
  sa_bind _ _ _ hs (fun s1 hb => by
    have h2 := branch_status _ _ _ hb
    show breakClear s1.status
    rw [h2]
    exact hs)

theorem bc_opBVC (s : CPU) (hs : breakClear s.status) :
    breakClear (statusAfter (opBVC s) s) :=
  sa_bind _ _ _ hs (fun s1 hb => by
    have h2 := branch_status _ _ _ hb
    show breakClear s1.status
    rw [h2]
    exact hs)

theorem bc_opBVS (s : CPU) (hs : breakClear s.status) :
    breakClear (statusAfter (opBVS s) s) :=
  sa_bind _ _ _ hs (fun s1 hb => by
    have h2 := branch_status _ _ _ hb
    show breakClear s1.status
    rw [h2]
    exact hs)

theorem bc_opJMPabs (s : CPU) (hs : breakClear s.status) :
    breakClear (statusAfter (opJMPabs s) s) :=
  sa_bind _ _ _ hs (fun _ _ => hs)

theorem bc_opJMPind (s : CPU) (hs : breakClear s.status) :
    breakClear (statusAfter (opJMPind s) s) :=
  sa_bind _ _ _ hs (fun _a _ => sa_bind _ _ _ hs (fun _r _ => hs))

theorem bc_opJSR (s : CPU) (hs : breakClear s.status) :
    breakClear (statusAfter (opJSR s) s) :=
  sa_bind _ _ _ hs (fun s1 hp => sa_bind _ _ _ hs (fun _ _ => by
    have h2 := stackPushU16_status _ _ _ hp
    show breakClear s1.status
    rw [h2]
    exact hs))

theorem bc_opRTS (s : CPU) (hs : breakClear s.status) :
    breakClear (statusAfter (opRTS s) s) :=
  sa_bind _ _ _ hs (fun p hp => by
    obtain ⟨v, s1⟩ := p
    have h2 := stackPopU16_status _ _ _ hp
    show breakClear s1.status
    rw [h2]
    exact hs)

theorem bc_opRTI (s : CPU) (hs : breakClear s.status) :
    breakClear (statusAfter (opRTI s) s) :=
  sa_bind _ _ _ hs (fun p hp => by
    obtain ⟨flags, s1⟩ := p
    exact sa_bind _ _ _ hs (fun q hq => by
      obtain ⟨pcv, s2⟩ := q
      have h2 := stackPopU16_status _ _ _ hq
      show breakClear s2.status
      rw [h2]
      exact bc_insert _ BREAK2 (bc_removeBREAK _) (by decide)))

theorem bc_opBRK (s : CPU) (hs : breakClear s.status) :
    breakClear (statusAfter (opBRK s) s) := hs

/-- Every dispatch arm preserves a clear BREAK bit in the live status register
(an aborting arm leaves the status unchanged). -/
theorem bc_dispatch (s : CPU) (mode : AddressingMode) (code : Nat)
    (hs : breakClear s.status) :
    breakClear (statusAfter (dispatch s mode code) s) :=
  sa_ite _ _ _ _ (fun _ => bc_opLDA s mode hs) (fun _ =>
  sa_ite _ _ _ _ (fun _ => bc_opLDX s mode hs) (fun _ =>
  sa_ite _ _ _ _ (fun _ => bc_opLDY s mode hs) (fun _ =>
  sa_ite _ _ _ _ (fun _ => bc_opSTA s mode hs) (fun _ =>
  sa_ite _ _ _ _ (fun _ => bc_opSTX s mode hs) (fun _ =>
  sa_ite _ _ _ _ (fun _ => bc_opSTY s mode hs) (fun _ =>
  sa_ite _ _ _ _ (fun _ => bc_opTAX s hs) (fun _ =>
  sa_ite _ _ _ _ (fun _ => bc_opTAY s hs) (fun _ =>
  sa_ite _ _ _ _ (fun _ => bc_opTSX s hs) (fun _ =>
  sa_ite _ _ _ _ (fun _ => bc_opTXA s hs) (fun _ =>
  sa_ite _ _ _ _ (fun _ => bc_opTYA s hs) (fun _ =>
  sa_ite _ _ _ _ (fun _ => bc_opTXS s hs) (fun _ =>
  sa_ite _ _ _ _ (fun _ => bc_opINX s hs) (fun _ =>
  sa_ite _ _ _ _ (fun _ => bc_opINY s hs) (fun _ =>
  sa_ite _ _ _ _ (fun _ => bc_opPHA s hs) (fun _ =>
  sa_ite _ _ _ _ (fun _ => bc_opPHP s hs) (fun _ =>
  sa_ite _ _ _ _ (fun _ => bc_opPLA s hs) (fun _ =>
  sa_ite _ _ _ _ (fun _ => bc_opPLP s hs) (fun _ =>
  sa_ite _ _ _ _ (fun _ => bc_opDEX s hs) (fun _ =>
  sa_ite _ _ _ _ (fun _ => bc_opDEY s hs) (fun _ =>
  sa_ite _ _ _ _ (fun _ => bc_opSEC s hs) (fun _ =>
  sa_ite _ _ _ _ (fun _ => bc_opCLC s hs) (fun _ =>
  sa_ite _ _ _ _ (fun _ => bc_opSEI s hs) (fun _ =>
  sa_ite _ _ _ _ (fun _ => bc_opCLI s hs) (fun _ =>
  sa_ite _ _ _ _ (fun _ => bc_opSED s hs) (fun _ =>
  sa_ite _ _ _ _ (fun _ => bc_opCLD s hs) (fun _ =>
  sa_ite _ _ _ _ (fun _ => bc_opCLV s hs) (fun _ =>
  sa_ite _ _ _ _ (fun _ => bc_opADC s mode hs) (fun _ =>
  sa_ite _ _ _ _ (fun _ => bc_opSBC s mode hs) (fun _ =>
  sa_ite _ _ _ _ (fun _ => bc_opCMP s mode hs) (fun _ =>
  sa_ite _ _ _ _ (fun _ => bc_opCPX s mode hs) (fun _ =>
  sa_ite _ _ _ _ (fun _ => bc_opCPY s mode hs) (fun _ =>
  sa_ite _ _ _ _ (fun _ => bc_opANDBits s mode hs) (fun _ =>
  sa_ite _ _ _ _ (fun _ => bc_opORA s mode hs) (fun _ =>
  sa_ite _ _ _ _ (fun _ => bc_opEOR s mode hs) (fun _ =>
  sa_ite _ _ _ _ (fun _ => bc_opBIT s mode hs) (fun _ =>
  sa_ite _ _ _ _ (fun _ => bc_opASLacc s hs) (fun _ =>
  sa_ite _ _ _ _ (fun _ => bc_opASLmem s mode hs) (fun _ =>
  sa_ite _ _ _ _ (fun _ => bc_opLSRacc s hs) (fun _ =>
  sa_ite _ _ _ _ (fun _ => bc_opLSRmem s mode hs) (fun _ =>
  sa_ite _ _ _ _ (fun _ => bc_opROLacc s hs) (fun _ =>
  sa_ite _ _ _ _ (fun _ => bc_opROLmem s mode hs) (fun _ =>
  sa_ite _ _ _ _ (fun _ => bc_opRORacc s hs) (fun _ =>
  sa_ite _ _ _ _ (fun _ => bc_opRORmem s mode hs) (fun _ =>
  sa_ite _ _ _ _ (fun _ => bc_opINCmem s mode hs) (fun _ =>
  sa_ite _ _ _ _ (fun _ => bc_opDECmem s mode hs) (fun _ =>
  sa_ite _ _ _ _ (fun _ => bc_opBCC s hs) (fun _ =>
  sa_ite _ _ _ _ (fun _ => bc_opBCS s hs) (fun _ =>
  sa_ite _ _ _ _ (fun _ => bc_opBEQ s hs) (fun _ =>
  sa_ite _ _ _ _ (fun _ => bc_opBNE s hs) (fun _ =>
  sa_ite _ _ _ _ (fun _ => bc_opBMI s hs) (fun _ =>
  sa_ite _ _ _ _ (fun _ => bc_opBPL s hs) (fun _ =>
  sa_ite _ _ _ _ (fun _ => bc_opBVC s hs) (fun _ =>
  sa_ite _ _ _ _ (fun _ => bc_opBVS s hs) (fun _ =>
  sa_ite _ _ _ _ (fun _ => bc_opJMPabs s hs) (fun _ =>
  sa_ite _ _ _ _ (fun _ => bc_opJMPind s hs) (fun _ =>
  sa_ite _ _ _ _ (fun _ => bc_opJSR s hs) (fun _ =>
  sa_ite _ _ _ _ (fun _ => bc_opRTS s hs) (fun _ =>
  sa_ite _ _ _ _ (fun _ => bc_opRTI s hs) (fun _ =>
  sa_ite _ _ _ _ (fun _ => bc_opBRK s hs) (fun _ =>
  hs))))))))))))))))))))))))))))))))))))))))))))))))))))))))))))

/-! Characterisation of the Z/N update and of the carry / overflow steps. -/

theorem ok_bind {α β : Type} (a : α) (f : α → Except Err β) :
    (Except.ok a >>= f : Except Err β) = f a := rfl

theorem pure_eq_ok {α : Type} (a : α) : (pure a : Except Err α) = .ok a := rfl

theorem containsFlag_updateZN_other (st r f : Nat)
    (hz : ZERO &&& f = 0) (hzk : (0xFF ^^^ ZERO) &&& f = f)
    (hn : NEGATIVE &&& f = 0) (hnk : (0xFF ^^^ NEGATIVE) &&& f = f) :
    containsFlag (updateZeroAndNegativeFlags st r) f = containsFlag st f := by
  unfold updateZeroAndNegativeFlags insertFlag removeFlag
  split_ifs <;>
    simp only [containsFlag_lor_zero _ _ _ hz, containsFlag_lor_zero _ _ _ hn,
      containsFlag_land_keep _ _ _ hzk, containsFlag_land_keep _ _ _ hnk]

theorem containsFlag_updateZN_zero (st r : Nat) :
    containsFlag (updateZeroAndNegativeFlags st r) ZERO = decide (r = 0) := by
  unfold updateZeroAndNegativeFlags insertFlag removeFlag
  split_ifs with h1 h2 h3 <;>
    simp only [containsFlag_lor_zero _ _ _ (by decide : NEGATIVE &&& ZERO = 0),
      containsFlag_land_keep _ _ _ (by decide : (0xFF ^^^ NEGATIVE) &&& ZERO = ZERO),
      containsFlag_lor_high _ _ _ (by decide : ZERO &&& ZERO = ZERO) (by decide : 0 < ZERO),
      containsFlag_land_zero _ _ _ (by decide : (0xFF ^^^ ZERO) &&& ZERO = 0)] <;>
    simp_all

theorem containsFlag_updateZN_neg (st r : Nat) :
    containsFlag (updateZeroAndNegativeFlags st r) NEGATIVE = (r &&& 0b10000000 != 0) := by
  unfold updateZeroAndNegativeFlags insertFlag removeFlag
  split_ifs with h1 h2 h3 <;>
    simp only [containsFlag_lor_high _ _ _ (by decide : NEGATIVE &&& NEGATIVE = NEGATIVE)
        (by decide : 0 < NEGATIVE),
      containsFlag_land_zero _ _ _ (by decide : (0xFF ^^^ NEGATIVE) &&& NEGATIVE = 0)] <;>
    simp_all

theorem containsFlag_ovfstep_carry (st : Nat) (c : Prop) [Decidable c] :
    containsFlag (if c then insertFlag st OVERFLOW else removeFlag st OVERFLOW) CARRY
      = containsFlag st CARRY := by
  unfold insertFlag removeFlag
  split
  · exact containsFlag_lor_zero _ _ _ (by decide)
  · exact containsFlag_land_keep _ _ _ (by decide)

theorem containsFlag_carrystep (st : Nat) (c : Prop) [Decidable c] :
    containsFlag (if c then insertFlag st CARRY else removeFlag st CARRY) CARRY
      = decide c := by
  unfold insertFlag removeFlag
  split_ifs with h
  · rw [containsFlag_lor_high _ _ _ (by decide) (by decide)]
    simp [h]
  · rw [containsFlag_land_zero _ _ _ (by decide)]
    simp_all

theorem containsFlag_carrystep_ovf (st : Nat) (c : Prop) [Decidable c] :
    containsFlag (if c then insertFlag st CARRY else removeFlag st CARRY) OVERFLOW
      = containsFlag st OVERFLOW := by
  unfold insertFlag removeFlag
  split
  · exact containsFlag_lor_zero _ _ _ (by decide)
  · exact containsFlag_land_keep _ _ _ (by decide)

theorem containsFlag_ovfstep (st : Nat) (c : Prop) [Decidable c] :
    containsFlag (if c then insertFlag st OVERFLOW else removeFlag st OVERFLOW) OVERFLOW
      = decide c := by
  unfold insertFlag removeFlag
  split_ifs with h
  · rw [containsFlag_lor_high _ _ _ (by decide) (by decide)]
    simp [h]
  · rw [containsFlag_land_zero _ _ _ (by decide)]
    simp_all

/-- C5: for every ADC execution with accumulator `A`, operand `M` and carry-in
`Cin`, the new accumulator is `(A + M + Cin) mod 256`, the carry flag becomes
`A + M + Cin > 255`, the overflow flag becomes
`(M xor A') AND (A xor A') AND 0x80 ≠ 0`, and Z and N are set from `A'`. -/
theorem c5_adc_flags (s : CPU) (m : Nat) :
    (addToRegisterA s m).register_a
        = (s.register_a + m + (if containsFlag s.status CARRY then 1 else 0)) % 256
  ∧ containsFlag (addToRegisterA s m).status CARRY
        = decide (s.register_a + m + (if containsFlag s.status CARRY then 1 else 0) > 255)
  ∧ containsFlag (addToRegisterA s m).status OVERFLOW
        = decide ((m ^^^ (addToRegisterA s m).register_a)
            &&& (s.register_a ^^^ (addToRegisterA s m).register_a) &&& 0x80 ≠ 0)
  ∧ containsFlag (addToRegisterA s m).status ZERO
        = decide ((addToRegisterA s m).register_a = 0)
  ∧ containsFlag (addToRegisterA s m).status NEGATIVE
        = ((addToRegisterA s m).register_a &&& 0x80 != 0) := by
  unfold addToRegisterA setRegisterA
  dsimp only
  refine ⟨rfl, ?_, ?_, ?_, ?_⟩
  · rw [containsFlag_updateZN_other _ _ _ (by decide) (by decide) (by decide) (by decide),
      containsFlag_ovfstep_carry, containsFlag_carrystep]
  · rw [containsFlag_updateZN_other _ _ _ (by decide) (by decide) (by decide) (by decide),
      containsFlag_ovfstep]
    rw [Nat.xor_comm s.register_a]
    simp
  · rw [containsFlag_updateZN_zero]
  · rw [containsFlag_updateZN_neg]

set_option maxRecDepth 10000 in
theorem sub_from_255_eq_xor : ∀ m < 256, 255 - m = 255 ^^^ m := by decide

/-- C6: the negate-then-subtract-one transform of the SBC arm is the bitwise
complement, so SBC with operand `M` is exactly ADC with operand `255 xor M`
(same accumulator and C/V/Z/N results). -/
theorem c6_sbc_is_adc_of_complement (s : CPU) (m : Nat) (hm : m < 256) :
    sbcTransform m = 255 ^^^ m
  ∧ addToRegisterA s (sbcTransform m) = addToRegisterA s (255 ^^^ m) := by
  have h1 : sbcTransform m = 255 - m := by
    unfold sbcTransform
    omega
  have h2 : sbcTransform m = 255 ^^^ m := h1.trans (sub_from_255_eq_xor m hm)
  exact ⟨h2, by rw [h2]⟩

theorem c6_sbc_is_adc_of_complement_witness :
    sbcTransform 3 = 255 ^^^ 3
  ∧ addToRegisterA CPU.new (sbcTransform 3) = addToRegisterA CPU.new (255 ^^^ 3) :=
  c6_sbc_is_adc_of_complement CPU.new 3 (by decide)

/-- PHP immediately followed by PLP, at the level of the two dispatch arms. -/
def phpPlp (s : CPU) : Except Err (Bool × CPU) := do
  let (_, s1) ← opPHP s
  opPLP s1

/-- State after `phpPlp` (unchanged state if it aborted, which it never does
for a stack pointer below 256). -/
def afterPhpPlp (s : CPU) : CPU :=
  match phpPlp s with
  | .ok (_, s') => s'
  | .error _ => s

/-- C7: PHP followed by PLP succeeds, restores every status flag except BREAK
(forced off) and BREAK2 (forced on), and returns SP to its prior value. -/
theorem c7_php_plp_roundtrip (s : CPU) (hsp : s.stack_pointer < 256) :
    (phpPlp s).toOption.isSome = true
  ∧ containsFlag (afterPhpPlp s).status CARRY = containsFlag s.status CARRY
  ∧ containsFlag (afterPhpPlp s).status ZERO = containsFlag s.status ZERO
  ∧ containsFlag (afterPhpPlp s).status INTERRUPT_DISABLE
      = containsFlag s.status INTERRUPT_DISABLE
  ∧ containsFlag (afterPhpPlp s).status DECIMAL_MODE = containsFlag s.status DECIMAL_MODE
  ∧ containsFlag (afterPhpPlp s).status OVERFLOW = containsFlag s.status OVERFLOW
  ∧ containsFlag (afterPhpPlp s).status NEGATIVE = containsFlag s.status NEGATIVE
  ∧ containsFlag (afterPhpPlp s).status BREAK = false
  ∧ containsFlag (afterPhpPlp s).status BREAK2 = true
  ∧ (afterPhpPlp s).stack_pointer = s.stack_pointer := by
  have haddr : STACK + s.stack_pointer < 0xFFFF := by
    unfold STACK
    omega
  have hsp2 : ((s.stack_pointer + 255) % 256 + 1) % 256 = s.stack_pointer := by omega
  have hrun : phpPlp s = .ok (true,
      { register_a := s.register_a, register_x := s.register_x,
        register_y := s.register_y,
        status := insertFlag (removeFlag
          ((insertFlag (insertFlag s.status BREAK) BREAK2) % 256) BREAK) BREAK2,
        program_counter := s.program_counter,
        stack_pointer := s.stack_pointer,
        memory := fun a => if a = STACK + s.stack_pointer
          then (insertFlag (insertFlag s.status BREAK) BREAK2) % 256
          else s.memory a }) := by
    unfold phpPlp opPHP opPLP stackPush stackPop memWrite memRead
    simp only [haddr, if_true, ok_bind, pure_eq_ok, hsp2, if_pos, reduceIte]
  unfold afterPhpPlp
  rw [hrun]
  unfold insertFlag removeFlag
  rw [mod256_eq_land]
  refine ⟨rfl, ?_, ?_, ?_, ?_, ?_, ?_, ?_, ?_, rfl⟩
  · rw [containsFlag_lor_zero _ _ _ (by decide : BREAK2 &&& CARRY = 0),
      containsFlag_land_keep _ _ _ (by decide : (0xFF ^^^ BREAK) &&& CARRY = CARRY),
      containsFlag_land_keep _ _ _ (by decide : (255 : Nat) &&& CARRY = CARRY),
      containsFlag_lor_zero _ _ _ (by decide : BREAK2 &&& CARRY = 0),
      containsFlag_lor_zero _ _ _ (by decide : BREAK &&& CARRY = 0)]
  · rw [containsFlag_lor_zero _ _ _ (by decide : BREAK2 &&& ZERO = 0),
      containsFlag_land_keep _ _ _ (by decide : (0xFF ^^^ BREAK) &&& ZERO = ZERO),
      containsFlag_land_keep _ _ _ (by decide : (255 : Nat) &&& ZERO = ZERO),
      containsFlag_lor_zero _ _ _ (by decide : BREAK2 &&& ZERO = 0),
      containsFlag_lor_zero _ _ _ (by decide : BREAK &&& ZERO = 0)]
  · rw [containsFlag_lor_zero _ _ _ (by decide : BREAK2 &&& INTERRUPT_DISABLE = 0),
      containsFlag_land_keep _ _ _
        (by decide : (0xFF ^^^ BREAK) &&& INTERRUPT_DISABLE = INTERRUPT_DISABLE),
      containsFlag_land_keep _ _ _
        (by decide : (255 : Nat) &&& INTERRUPT_DISABLE = INTERRUPT_DISABLE),
      containsFlag_lor_zero _ _ _ (by decide : BREAK2 &&& INTERRUPT_DISABLE = 0),
      containsFlag_lor_zero _ _ _ (by decide : BREAK &&& INTERRUPT_DISABLE = 0)]
  · rw [containsFlag_lor_zero _ _ _ (by decide : BREAK2 &&& DECIMAL_MODE = 0),
      containsFlag_land_keep _ _ _
        (by decide : (0xFF ^^^ BREAK) &&& DECIMAL_MODE = DECIMAL_MODE),
      containsFlag_land_keep _ _ _
        (by decide : (255 : Nat) &&& DECIMAL_MODE = DECIMAL_MODE),
      containsFlag_lor_zero _ _ _ (by decide : BREAK2 &&& DECIMAL_MODE = 0),
      containsFlag_lor_zero _ _ _ (by decide : BREAK &&& DECIMAL_MODE = 0)]
  · rw [containsFlag_lor_zero _ _ _ (by decide : BREAK2 &&& OVERFLOW = 0),
      containsFlag_land_keep _ _ _ (by decide : (0xFF ^^^ BREAK) &&& OVERFLOW = OVERFLOW),
      containsFlag_land_keep _ _ _ (by decide : (255 : Nat) &&& OVERFLOW = OVERFLOW),
      containsFlag_lor_zero _ _ _ (by decide : BREAK2 &&& OVERFLOW = 0),
      containsFlag_lor_zero _ _ _ (by decide : BREAK &&& OVERFLOW = 0)]
  · rw [containsFlag_lor_zero _ _ _ (by decide : BREAK2 &&& NEGATIVE = 0),
      containsFlag_land_keep _ _ _ (by decide : (0xFF ^^^ BREAK) &&& NEGATIVE = NEGATIVE),
      containsFlag_land_keep _ _ _ (by decide : (255 : Nat) &&& NEGATIVE = NEGATIVE),
      containsFlag_lor_zero _ _ _ (by decide : BREAK2 &&& NEGATIVE = 0),
      containsFlag_lor_zero _ _ _ (by decide : BREAK &&& NEGATIVE = 0)]
  · rw [containsFlag_lor_zero _ _ _ (by decide : BREAK2 &&& BREAK = 0),
      containsFlag_land_zero _ _ _ (by decide : (0xFF ^^^ BREAK) &&& BREAK = 0)]
  · rw [containsFlag_lor_high _ _ _ (by decide : BREAK2 &&& BREAK2 = BREAK2)
      (by decide : 0 < BREAK2)]

theorem c7_php_plp_roundtrip_witness :
    (phpPlp CPU.new).toOption.isSome = true
  ∧ containsFlag (afterPhpPlp CPU.new).status CARRY = containsFlag CPU.new.status CARRY
  ∧ containsFlag (afterPhpPlp CPU.new).status ZERO = containsFlag CPU.new.status ZERO
  ∧ containsFlag (afterPhpPlp CPU.new).status INTERRUPT_DISABLE
      = containsFlag CPU.new.status INTERRUPT_DISABLE
  ∧ containsFlag (afterPhpPlp CPU.new).status DECIMAL_MODE
      = containsFlag CPU.new.status DECIMAL_MODE
  ∧ containsFlag (afterPhpPlp CPU.new).status OVERFLOW
      = containsFlag CPU.new.status OVERFLOW
  ∧ containsFlag (afterPhpPlp CPU.new).status NEGATIVE
      = containsFlag CPU.new.status NEGATIVE
  ∧ containsFlag (afterPhpPlp CPU.new).status BREAK = false
  ∧ containsFlag (afterPhpPlp CPU.new).status BREAK2 = true
  ∧ (afterPhpPlp CPU.new).stack_pointer = CPU.new.stack_pointer :=
  c7_php_plp_roundtrip CPU.new (by decide)

/-- Pointwise description of the `copy_from_slice` helper. -/
theorem storeList_get (l : List Nat) (m : Nat → Nat) (addr a : Nat) :
    storeList m addr l a
      = if addr ≤ a ∧ a < addr + l.length then l.getD (a - addr) 0 % 256 else m a := by
  induction l generalizing m addr with
  | nil =>
      unfold storeList
      simp only [List.length_nil, Nat.add_zero]
      split
      · exfalso
        omega
      · rfl
  | cons b rest ih =>
      unfold storeList
      rw [ih]
      simp only [List.length_cons]
      by_cases hEq : a = addr
      · subst hEq
        rw [if_neg (by omega : ¬(a + 1 ≤ a ∧ a < a + 1 + rest.length)),
          if_pos rfl,
          if_pos (by omega : a ≤ a ∧ a < a + (rest.length + 1))]
        simp
      · by_cases hin : addr + 1 ≤ a ∧ a < addr + 1 + rest.length
        · rw [if_pos hin, if_pos (by omega : addr ≤ a ∧ a < addr + (rest.length + 1))]
          have hidx : a - addr = (a - (addr + 1)) + 1 := by omega
          rw [hidx, List.getD_cons_succ]
        · rw [if_neg hin, if_neg hEq,
            if_neg (by omega : ¬(addr ≤ a ∧ a < addr + (rest.length + 1)))]

/-- C10: `load` succeeds exactly for programs of length at most 0x7FFF; on
success the bytes land at 0x8000 onwards (except where the reset-vector write
at 0xFFFC/0xFFFD overwrites them afterwards) and the reset vector reads back
0x8000; a longer program makes the slice indexing panic before any write. -/
theorem c10_load (s : CPU) (prog : List Nat) :
    ((CPU.load s prog).toOption.isSome = true ↔ prog.length ≤ 0x7FFF)
  ∧ (0x7FFF < prog.length → CPU.load s prog = .error .memOutOfBounds)
  ∧ (∀ s', CPU.load s prog = .ok s' →
      (∀ i, i < prog.length → 0x8000 + i ≠ 0xFFFC → 0x8000 + i ≠ 0xFFFD →
        s'.memory (0x8000 + i) = prog.getD i 0 % 256)
      ∧ memReadU16 s' 0xFFFC = .ok 0x8000) := by
  unfold CPU.load memWriteU16 memWrite
  by_cases hlen : 0x8000 + prog.length ≤ 0xFFFF
  · rw [if_pos hlen, if_pos (show (0xFFFC : Nat) < 0xFFFF from by omega)]
    rw [ok_bind]
    rw [if_pos (show (0xFFFC + 1 : Nat) < 0xFFFF from by omega)]
    refine ⟨⟨fun _ => by omega, fun _ => rfl⟩, fun h => absurd hlen (by omega), ?_⟩
    intro s' hok
    cases hok
    constructor
    · intro i hi h1 h2
      dsimp only
      rw [if_neg (by omega : ¬(0x8000 + i = 0xFFFC + 1)), if_neg h1, storeList_get,
        if_pos (by omega)]
      have hi' : 0x8000 + i - 0x8000 = i := by omega
      rw [hi']
    · unfold memReadU16 memRead
      rw [if_pos (show (0xFFFC : Nat) < 0xFFFF from by omega)]
      rw [ok_bind]
      rw [if_pos (show (0xFFFC + 1 : Nat) < 0xFFFF from by omega)]
      rw [ok_bind, pure_eq_ok]
      dsimp only
      rw [if_neg (by omega : ¬(0xFFFC : Nat) = 0xFFFC + 1), if_pos rfl, if_pos rfl]
      rfl
  · rw [if_neg hlen]
    refine ⟨⟨fun h => by simp [Except.toOption] at h, fun h => absurd h (by omega)⟩, fun _ => rfl, ?_⟩
    intro s' hok
    exact Except.noConfusion hok

theorem c10_load_witness :
    CPU.load CPU.new (List.replicate 0x8000 0) = .error .memOutOfBounds
  ∧ ((CPU.load CPU.new [0xA9, 0x05, 0x00]).toOption.isSome = true
      ↔ [0xA9, 0x05, 0x00].length ≤ 0x7FFF) :=
  ⟨(c10_load CPU.new (List.replicate 0x8000 0)).2.1 (by rw [List.length_replicate]; omega),
   (c10_load CPU.new [0xA9, 0x05, 0x00]).1⟩

/-- C1: the opcode table is missing every documented transfer (TAY/TSX/TXA/
TYA/TXS), INY/DEX/DEY, the stack operations, the flag operations, the
accumulator shift/rotate forms, every branch except none, JMP/JSR/RTS/RTI and
NOP 0xEA, while containing e.g. TAX and BRK — so `run` aborts with the fatal
unknown-opcode error on those documented opcodes. -/
theorem c1_table_missing_documented_opcodes :
    lookupOp 0xA8 = none ∧ lookupOp 0xBA = none ∧ lookupOp 0x8A = none
  ∧ lookupOp 0x98 = none ∧ lookupOp 0x9A = none
  ∧ lookupOp 0xC8 = none ∧ lookupOp 0xCA = none ∧ lookupOp 0x88 = none
  ∧ lookupOp 0x48 = none ∧ lookupOp 0x08 = none ∧ lookupOp 0x68 = none
  ∧ lookupOp 0x28 = none
  ∧ lookupOp 0x38 = none ∧ lookupOp 0x18 = none ∧ lookupOp 0x78 = none
  ∧ lookupOp 0x58 = none ∧ lookupOp 0xF8 = none ∧ lookupOp 0xD8 = none
  ∧ lookupOp 0xB8 = none
  ∧ lookupOp 0x0A = none ∧ lookupOp 0x4A = none ∧ lookupOp 0x2A = none
  ∧ lookupOp 0x6A = none
  ∧ lookupOp 0x90 = none ∧ lookupOp 0xB0 = none ∧ lookupOp 0xF0 = none
  ∧ lookupOp 0xD0 = none ∧ lookupOp 0x30 = none ∧ lookupOp 0x50 = none
  ∧ lookupOp 0x70 = none
  ∧ lookupOp 0x4C = none ∧ lookupOp 0x6C = none ∧ lookupOp 0x20 = none
  ∧ lookupOp 0x60 = none ∧ lookupOp 0x40 = none
  ∧ lookupOp 0xEA = none
  ∧ (lookupOp 0xAA).isSome = true ∧ (lookupOp 0x00).isSome = true
  ∧ (lookupOp 0xA9).isSome = true :=
  ⟨rfl, rfl, rfl, rfl, rfl, rfl, rfl, rfl, rfl, rfl, rfl, rfl, rfl, rfl, rfl,
   rfl, rfl, rfl, rfl, rfl, rfl, rfl, rfl, rfl, rfl, rfl, rfl, rfl, rfl, rfl,
   rfl, rfl, rfl, rfl, rfl, rfl, rfl, rfl, rfl⟩

/-- C2: the memory array has length 0xFFFF, not 0x10000, so reading or writing
the largest 16-bit address 0xFFFF is the out-of-bounds panic rather than a
successful access, and `read16 0xFFFF` fails on its very first byte;
address 0xFFFE is still fine. -/
theorem c2_address_ffff_fails :
    memRead CPU.new 0xFFFF = .error .memOutOfBounds
  ∧ memWrite CPU.new 0xFFFF 0 = .error .memOutOfBounds
  ∧ memReadU16 CPU.new 0xFFFF = .error .memOutOfBounds
  ∧ memRead CPU.new 0xFFFE = .ok 0 :=
  ⟨rfl, rfl, rfl, rfl⟩

/-- Concrete CPU for the BPL counterexample: NEGATIVE set and CARRY clear,
with branch offset 0x05 at the program counter. -/
def c3stateA : CPU :=
  { register_a := 0, register_x := 0, register_y := 0,
    status := 0b10100100, program_counter := 0x8001,
    stack_pointer := 0xfd, memory := fun a => if a = 0x8001 then 0x05 else 0 }

/-- Same state with NEGATIVE clear and CARRY set. -/
def c3stateB : CPU :=
  { c3stateA with status := 0b00100101 }

/-- C3: the BPL arm tests the CARRY flag, not NEGATIVE: with N = 1 and C = 0
it takes the branch (PC := PC + 1 + offset), with N = 0 and C = 1 it leaves
PC untouched; moreover opcode 0x10 has no table entry at all, so `run`
aborts before ever reaching the arm. -/
theorem c3_bpl_tests_carry_not_negative :
    lookupOp 0x10 = none
  ∧ (dispatch c3stateA AddressingMode.NoneAddressing 0x10).map
      (fun r => r.2.program_counter) = .ok 0x8007
  ∧ (dispatch c3stateB AddressingMode.NoneAddressing 0x10).map
      (fun r => r.2.program_counter) = .ok 0x8001 :=
  ⟨rfl, rfl, rfl⟩

/-- C4: a fetched NOP byte 0xEA aborts `run` with the unknown-opcode panic
(the table has no 0xEA entry, so the `0x00 | 0xEA => return` arm is
unreachable for NOP), whereas BRK 0x00 terminates the loop normally. -/
theorem c4_nop_aborts_instead_of_terminating :
    loadAndRun [0xEA] 5 = some (.error (.unknownOpcode 0xEA))
  ∧ (loadAndRun [0x00] 5).map (fun r => r.toOption.isSome) = some true :=
  ⟨rfl, rfl⟩

/-- The program of the INX-wraparound scenario. -/
def c9prog : List Nat := [0xA9, 0xFF, 0xAA, 0xE8, 0xE8, 0x00]

/-- Memory image after `load`ing `c9prog` into a fresh CPU. -/
def c9mem : Nat → Nat := fun a =>
  if a = 0xFFFC + 1 then (0x8000 >>> 8) % 256 % 256 else
  if a = 0xFFFC then (0x8000 &&& 0xff) % 256 else
  storeList (fun _ => 0) 0x8000 c9prog a

/-- State after load and reset. -/
def c9s0 : CPU :=
  { register_a := 0, register_x := 0, register_y := 0, status := 0b100100,
    program_counter := 0x8000, stack_pointer := 0xfd, memory := c9mem }

/-- State after `LDA #$FF`. -/
def c9s1 : CPU :=
  { c9s0 with register_a := 0xFF, status := 0b10100100, program_counter := 0x8002 }

/-- State after `TAX`. -/
def c9s2 : CPU :=
  { c9s1 with register_x := 0xFF, program_counter := 0x8003 }

/-- State after the first `INX` (X wraps 0xFF to 0x00). -/
def c9s3 : CPU :=
  { c9s2 with register_x := 0, status := 0b00100110, program_counter := 0x8004 }

/-- State after the second `INX`. -/
def c9s4 : CPU :=
  { c9s3 with register_x := 1, status := 0b00100100, program_counter := 0x8005 }

/-- State at the BRK that terminates the run. -/
def c9s5 : CPU :=
  { c9s4 with program_counter := 0x8006 }

/-- Unfolding lemma for one loop iteration. -/
theorem runFuel_succ (n : Nat) (s : CPU) :
    runFuel (n + 1) s =
      match step s with
      | .error e => some (.error e)
      | .ok (false, s1) => some (.ok s1)
      | .ok (true, s1) => runFuel n s1 := rfl

/-- Register X of a finished run, if it terminated normally. -/
def resultX (r : Option (Except Err CPU)) : Option Nat :=
  match r with
  | some (.ok s) => some s.register_x
  | _ => none

/-- C9: `load_and_run` on `[0xA9, 0xFF, 0xAA, 0xE8, 0xE8, 0x00]` from a fresh
CPU terminates (five instructions inside any fuel of ten) and leaves X = 1:
TAX copies 0xFF, the first INX wraps to 0x00, the second increments to 1. -/
theorem c9_inx_wraparound : resultX (loadAndRun c9prog 10) = some 1 := by
  have h0 : loadAndRun c9prog 10 = runFuel 10 c9s0 := rfl
  have h1 : step c9s0 = .ok (true, c9s1) := rfl
  have h2 : step c9s1 = .ok (true, c9s2) := rfl
  have h3 : step c9s2 = .ok (true, c9s3) := rfl
  have h4 : step c9s3 = .ok (true, c9s4) := rfl
  have h5 : step c9s4 = .ok (false, c9s5) := rfl
  have u1 : runFuel 10 c9s0 = runFuel 9 c9s1 := by
    rw [show (10 : Nat) = 9 + 1 from rfl, runFuel_succ, h1]
  have u2 : runFuel 9 c9s1 = runFuel 8 c9s2 := by
    rw [show (9 : Nat) = 8 + 1 from rfl, runFuel_succ, h2]
  have u3 : runFuel 8 c9s2 = runFuel 7 c9s3 := by
    rw [show (8 : Nat) = 7 + 1 from rfl, runFuel_succ, h3]
  have u4 : runFuel 7 c9s3 = runFuel 6 c9s4 := by
    rw [show (7 : Nat) = 6 + 1 from rfl, runFuel_succ, h4]
  have u5 : runFuel 6 c9s4 = some (.ok c9s5) := by
    rw [show (6 : Nat) = 5 + 1 from rfl, runFuel_succ, h5]
  rw [h0, u1, u2, u3, u4, u5]
  rfl

theorem bc_reset (s s' : CPU) (h : CPU.reset s = .ok s') : breakClear s'.status := by
  unfold CPU.reset at h
  obtain ⟨pc, _, hf⟩ := bind_ok _ _ _ h
  simp only [pure, Except.pure, Except.ok.injEq] at hf
  rw [← hf]
  exact (by decide : breakClear 0b100100)


theorem bc_step (s : CPU) (cont : Bool) (s' : CPU) (h : step s = .ok (cont, s'))
    (hs : breakClear s.status) : breakClear s'.status := by
  unfold step at h
  obtain ⟨code, _, h1⟩ := bind_ok _ _ _ h
  cases hop : lookupOp code with
  | none =>
      rw [hop] at h1
      exact Except.noConfusion h1
  | some op =>
      rw [hop] at h1
      obtain ⟨⟨c2, s2⟩, hd, h2⟩ := bind_ok _ _ _ h1
      dsimp only at h2
      have hbc : breakClear s2.status := by
        have hh := bc_dispatch
          { s with program_counter := (s.program_counter + 1) % 65536 } op.mode code hs
        rw [hd] at hh
        exact hh
      by_cases hc : c2 = true
      · rw [if_pos hc] at h2
        by_cases hpc : (s.program_counter + 1) % 65536 = s2.program_counter
        · rw [if_pos hpc] at h2
          simp only [pure, Except.pure, Except.ok.injEq, Prod.mk.injEq] at h2
          rw [← h2.2]
          exact hbc
        · rw [if_neg hpc] at h2
          simp only [pure, Except.pure, Except.ok.injEq, Prod.mk.injEq] at h2
          rw [← h2.2]
          exact hbc
      · rw [if_neg hc] at h2
        simp only [pure, Except.pure, Except.ok.injEq, Prod.mk.injEq] at h2
        rw [← h2.2]
        exact hbc

/-- C8: the BREAK bit of the live status register is clear from reset on and
stays clear: reset writes P = 0b100100 (BREAK off), every dispatch arm, PLP
and RTI included, preserves a clear BREAK (PHP sets BREAK only in the pushed
copy), and so a full fetch-dispatch step keeps the live BREAK bit clear. -/
theorem c8_live_break_always_clear :
    (∀ s s', CPU.reset s = .ok s' → breakClear s'.status)
  ∧ (∀ s mode code, breakClear s.status →
      breakClear (statusAfter (dispatch s mode code) s))
  ∧ (∀ s cont s', step s = .ok (cont, s') → breakClear s.status →
      breakClear s'.status) :=
  ⟨bc_reset, bc_dispatch, bc_step⟩

/-- State reached by one BRK step from a fresh CPU. -/
def c8wState : CPU :=
  { CPU.new with program_counter := (CPU.new.program_counter + 1) % 65536 }

theorem c8_live_break_always_clear_witness :
    breakClear (statusAfter (dispatch CPU.new AddressingMode.NoneAddressing 0x28) CPU.new)
  ∧ breakClear c8wState.status :=
  ⟨c8_live_break_always_clear.2.1 CPU.new AddressingMode.NoneAddressing 0x28 (by decide),
   c8_live_break_always_clear.2.2 CPU.new false c8wState rfl (by decide)⟩

end NES
